import Mathlib

/-!
Verification of the QualityControlSuite streaming QC engine.

This file gives a shallow embedding, in Lean 4, of the core of the
QualityControlSuite repository (validators, QC engines and the pipeline
orchestrator in src/main.py, src/modules/validators and
src/modules/qc_engines), and proves or refutes the frozen specification
claims about it.

Modelling conventions used throughout:
- Python floats are modelled as rationals; the float infinity sentinel used
  for min_read_length is modelled as the value none of an Option type.
- A Python dict of numeric metrics or thresholds is modelled as an
  association list over String keys; dict.get(k, d) is a lookup with a
  default and dict[k] is a strict lookup whose failure models a KeyError.
- A file on disk is modelled by FsFile: either missing (so os.stat raises),
  or present with a byte size, a readability flag, and the decoded text
  line stream, each line either a string (without its trailing newline)
  or a read fault (an exception raised by that readline call, e.g. a
  corrupt gzip stream).  An empty Python readline result, which signals
  end of file, is modelled by the end of the list.
- Exceptions that escape a function are modelled with Except; exceptions
  captured inside a function are modelled by the error entries the source
  stores them in.
- Failure-description strings produced by check_thresholds interpolate
  float values; they are modelled as a structured FailedCheck record
  (check name, the metric value read by the interpolation, the bound),
  which keeps the strict metrics[key] lookup of the f-string observable.
-/

deriving instance DecidableEq for Except

/-- Association-list model of a Python dict with numeric values. -/
abbrev MetricsDict := List (String × ℚ)

/-- Model of dict.get(key, default). -/
def dget (d : MetricsDict) (key : String) (default : ℚ) : ℚ :=
  match d.lookup key with
  | some v => v
  | none => default

/-- Model of the KeyError message raised by a strict dict[key] access. -/
def keyErrorMsg (key : String) : String := "KeyError: " ++ key

/-- Executable models of the Python string operations used by the source,
phrased over the character list of a String (the iterator-based core
library versions are not kernel-reducible, which concrete evaluations in
this file need).  pyIsSpace covers the ASCII whitespace that str.strip
removes. -/
def pyIsSpace (c : Char) : Bool :=
  c = ' ' || c = '\t' || c = '\n' || c = '\r' || c = Char.ofNat 11 || c = Char.ofNat 12

/-- Model of str.strip(): remove leading and trailing whitespace. -/
def pyStrip (s : String) : String :=
  ⟨((s.data.dropWhile pyIsSpace).reverse.dropWhile pyIsSpace).reverse⟩

/-- Model of str.startswith(pre). -/
def pyStartsWith (s pre : String) : Bool := pre.data.isPrefixOf s.data

/-- Model of str.endswith(suf). -/
def pyEndsWith (s suf : String) : Bool := suf.data.isSuffixOf s.data

/-- Model of str.lower() for the ASCII file names and lines the source
handles. -/
def pyLower (s : String) : String := ⟨s.data.map Char.toLower⟩

/-- Model of str.upper() for the ASCII sequences the source handles. -/
def pyUpper (s : String) : String := ⟨s.data.map Char.toUpper⟩

/-- Splitting a character list at every non-overlapping occurrence of a
non-empty separator, with a fuel argument (at entry, the length of the
list) so that the recursion is structural. -/
def splitOnListFuel (sep : List Char) : ℕ → List Char → List (List Char)
  | _, [] => [[]]
  | 0, cs => [cs]
  | fuel + 1, c :: cs =>
    if sep.isPrefixOf (c :: cs) then
      [] :: splitOnListFuel sep fuel (List.drop (sep.length - 1) cs)
    else
      match splitOnListFuel sep fuel cs with
      | [] => [[c]]
      | h :: t => (c :: h) :: t

/-- Model of str.split(sep) for a non-empty separator. -/
def pySplitOn (s sep : String) : List String :=
  if sep = "" then [s]
  else (splitOnListFuel sep.data s.data.length s.data).map (fun l => ⟨l⟩)

/-- Structured model of one failure-description string appended by
check_thresholds: which check fired, the metric value interpolated via the
strict metrics[key] access, and the threshold bound. -/
structure FailedCheck where
  check : String
  value : ℚ
  bound : ℚ
deriving Repr, DecidableEq

/-- Return value of check_thresholds: a status string plus the ordered
failed_checks list. -/
structure QCResult where
  status : String
  failed_checks : List FailedCheck
deriving Repr, DecidableEq

/-- One threshold check block of check_thresholds, shared shape of all the
blocks in fastq_qc.py, bam_qc.py and vcf_qc.py:
if tkey in thresholds, compare metrics.get(mkey, mdefault) against
thresholds[tkey] (strictly greater for max-type checks, strictly less for
min-type checks); on violation overwrite the status with newStatus and
append a failure description, whose f-string reads metrics[mkey] strictly
and therefore raises a KeyError when the key is absent.
A max-type block fires when the metric value strictly exceeds the bound,
a min-type block fires when it is strictly below the bound (both
comparisons are strict in the source). -/
def thresholdViolated (useGt : Bool) (mval bound : ℚ) : Bool :=
  if useGt then decide (bound < mval) else decide (mval < bound)

def thresholdCheck (metrics thresholds : MetricsDict) (tkey mkey : String)
    (mdefault : ℚ) (useGt : Bool) (newStatus checkName : String)
    (st : String × List FailedCheck) :
    Except String (String × List FailedCheck) :=
  match thresholds.lookup tkey with
  | none => .ok st
  | some bound =>
    if thresholdViolated useGt (dget metrics mkey mdefault) bound then
      match metrics.lookup mkey with
      | none => .error (keyErrorMsg mkey)
      | some v => .ok (newStatus, st.2 ++ [⟨checkName, v, bound⟩])
    else .ok st

/-- Embedding of FastqQCEngine.check_thresholds (fastq_qc.py).  The five
checks run in source order; each violated check overwrites qc_status (there
is no worst-severity tracking in the source) and appends one failure
description. -/
def fastq_check_thresholds (metrics thresholds : MetricsDict) :
    Except String QCResult :=
  match thresholdCheck metrics thresholds "min_quality_score"
      "avg_quality_score" 0 false "failed" "Average quality score"
      ("passed", []) with
  | .error e => .error e
  | .ok st1 =>
  match thresholdCheck metrics thresholds "min_read_length"
      "min_read_length" 0 false "failed" "Minimum read length" st1 with
  | .error e => .error e
  | .ok st2 =>
  match thresholdCheck metrics thresholds "max_n_percentage"
      "n_percentage" 100 true "failed" "N percentage" st2 with
  | .error e => .error e
  | .ok st3 =>
  match thresholdCheck metrics thresholds "min_gc_content"
      "gc_content" 0 false "warning" "GC content" st3 with
  | .error e => .error e
  | .ok st4 =>
  match thresholdCheck metrics thresholds "max_gc_content"
      "gc_content" 100 true "warning" "GC content" st4 with
  | .error e => .error e
  | .ok st5 => .ok ⟨st5.1, st5.2⟩

/-- Embedding of BamQCEngine.check_thresholds (bam_qc.py). -/
def bam_check_thresholds (metrics thresholds : MetricsDict) :
    Except String QCResult :=
  match thresholdCheck metrics thresholds "min_mapping_quality"
      "mean_mapping_quality" 0 false "failed" "Mean mapping quality"
      ("passed", []) with
  | .error e => .error e
  | .ok st1 =>
  match thresholdCheck metrics thresholds "min_coverage"
      "mean_coverage" 0 false "failed" "Mean coverage" st1 with
  | .error e => .error e
  | .ok st2 =>
  match thresholdCheck metrics thresholds "max_unmapped_percentage"
      "unmapped_percentage" 100 true "failed" "Unmapped percentage" st2 with
  | .error e => .error e
  | .ok st3 => .ok ⟨st3.1, st3.2⟩

/-- Embedding of VcfQCEngine.check_thresholds (vcf_qc.py). -/
def vcf_check_thresholds (metrics thresholds : MetricsDict) :
    Except String QCResult :=
  match thresholdCheck metrics thresholds "min_variant_quality"
      "mean_variant_quality" 0 false "failed" "Mean variant quality"
      ("passed", []) with
  | .error e => .error e
  | .ok st1 =>
  match thresholdCheck metrics thresholds "min_depth"
      "mean_depth" 0 false "failed" "Mean depth" st1 with
  | .error e => .error e
  | .ok st2 =>
  match thresholdCheck metrics thresholds "max_missing_rate"
      "missing_data_percentage" 100 true "failed" "Missing data percentage"
      st2 with
  | .error e => .error e
  | .ok st3 => .ok ⟨st3.1, st3.2⟩

/-- Each threshold check block preserves the invariant that the status
differs from passed exactly when the failed_checks list is non-empty,
provided the overwriting status is itself not the passed status. -/
lemma thresholdCheck_inv {m t : MetricsDict} {tk mk : String} {d : ℚ}
    {g : Bool} {ns cn : String} {st st' : String × List FailedCheck}
    (h : thresholdCheck m t tk mk d g ns cn st = .ok st')
    (hns : ns ≠ "passed") (hst : st.1 ≠ "passed" ↔ st.2 ≠ []) :
    st'.1 ≠ "passed" ↔ st'.2 ≠ [] := by
  unfold thresholdCheck at h
  rcases hl : t.lookup tk with _ | b <;> rw [hl] at h <;> dsimp only at h
  · injection h with h
    subst h
    exact hst
  · split at h
    · rcases hm : m.lookup mk with _ | v <;> rw [hm] at h <;> dsimp only at h
      · exact Except.noConfusion h
      · injection h with h
        subst h
        simp [hns]
    · injection h with h
      subst h
      exact hst

/-- When the metric key for a strictly positive min-type threshold is
absent, the comparison uses the 0 default and fires, and the block then
raises a KeyError from the strict metrics[mkey] access of its f-string. -/
lemma thresholdCheck_missing_min (m t : MetricsDict) (tk mk : String)
    (b : ℚ) (ns cn : String) (st : String × List FailedCheck)
    (hm : m.lookup mk = none) (ht : t.lookup tk = some b) (hb : 0 < b) :
    thresholdCheck m t tk mk 0 false ns cn st = .error (keyErrorMsg mk) := by
  unfold thresholdCheck
  rw [ht]
  dsimp only
  rw [show dget m mk 0 = 0 from by simp [dget, hm]]
  rw [show thresholdViolated false 0 b = true from by
    simp [thresholdViolated, hb]]
  simp [hm]

/-- C10: in each of the three engines, a returned check_thresholds result
has a status other than passed exactly when its failed_checks list is
non-empty, and an empty thresholds configuration always yields the passed
status with an empty failed_checks list. -/
theorem C10_status_iff_failed_checks :
    (∀ metrics thresholds r, fastq_check_thresholds metrics thresholds = .ok r →
        (r.status ≠ "passed" ↔ r.failed_checks ≠ [])) ∧
    (∀ metrics thresholds r, bam_check_thresholds metrics thresholds = .ok r →
        (r.status ≠ "passed" ↔ r.failed_checks ≠ [])) ∧
    (∀ metrics thresholds r, vcf_check_thresholds metrics thresholds = .ok r →
        (r.status ≠ "passed" ↔ r.failed_checks ≠ [])) ∧
    (∀ metrics, fastq_check_thresholds metrics [] = .ok ⟨"passed", []⟩) ∧
    (∀ metrics, bam_check_thresholds metrics [] = .ok ⟨"passed", []⟩) ∧
    (∀ metrics, vcf_check_thresholds metrics [] = .ok ⟨"passed", []⟩) := by
  refine ⟨?_, ?_, ?_, fun _ => rfl, fun _ => rfl, fun _ => rfl⟩
  · intro m t r h
    unfold fastq_check_thresholds at h
    cases h1 : thresholdCheck m t "min_quality_score" "avg_quality_score"
        0 false "failed" "Average quality score" ("passed", []) with
    | error e => rw [h1] at h; exact Except.noConfusion h
    | ok st1 =>
    rw [h1] at h
    dsimp only at h
    cases h2 : thresholdCheck m t "min_read_length" "min_read_length"
        0 false "failed" "Minimum read length" st1 with
    | error e => rw [h2] at h; exact Except.noConfusion h
    | ok st2 =>
    rw [h2] at h
    dsimp only at h
    cases h3 : thresholdCheck m t "max_n_percentage" "n_percentage"
        100 true "failed" "N percentage" st2 with
    | error e => rw [h3] at h; exact Except.noConfusion h
    | ok st3 =>
    rw [h3] at h
    dsimp only at h
    cases h4 : thresholdCheck m t "min_gc_content" "gc_content"
        0 false "warning" "GC content" st3 with
    | error e => rw [h4] at h; exact Except.noConfusion h
    | ok st4 =>
    rw [h4] at h
    dsimp only at h
    cases h5 : thresholdCheck m t "max_gc_content" "gc_content"
        100 true "warning" "GC content" st4 with
    | error e => rw [h5] at h; exact Except.noConfusion h
    | ok st5 =>
    rw [h5] at h
    dsimp only at h
    injection h with h
    subst h
    exact thresholdCheck_inv h5 (by decide)
      (thresholdCheck_inv h4 (by decide)
        (thresholdCheck_inv h3 (by decide)
          (thresholdCheck_inv h2 (by decide)
            (thresholdCheck_inv h1 (by decide) (by simp)))))
  · intro m t r h
    unfold bam_check_thresholds at h
    cases h1 : thresholdCheck m t "min_mapping_quality" "mean_mapping_quality"
        0 false "failed" "Mean mapping quality" ("passed", []) with
    | error e => rw [h1] at h; exact Except.noConfusion h
    | ok st1 =>
    rw [h1] at h
    dsimp only at h
    cases h2 : thresholdCheck m t "min_coverage" "mean_coverage"
        0 false "failed" "Mean coverage" st1 with
    | error e => rw [h2] at h; exact Except.noConfusion h
    | ok st2 =>
    rw [h2] at h
    dsimp only at h
    cases h3 : thresholdCheck m t "max_unmapped_percentage" "unmapped_percentage"
        100 true "failed" "Unmapped percentage" st2 with
    | error e => rw [h3] at h; exact Except.noConfusion h
    | ok st3 =>
    rw [h3] at h
    dsimp only at h
    injection h with h
    subst h
    exact thresholdCheck_inv h3 (by decide)
      (thresholdCheck_inv h2 (by decide)
        (thresholdCheck_inv h1 (by decide) (by simp)))
  · intro m t r h
    unfold vcf_check_thresholds at h
    cases h1 : thresholdCheck m t "min_variant_quality" "mean_variant_quality"
        0 false "failed" "Mean variant quality" ("passed", []) with
    | error e => rw [h1] at h; exact Except.noConfusion h
    | ok st1 =>
    rw [h1] at h
    dsimp only at h
    cases h2 : thresholdCheck m t "min_depth" "mean_depth"
        0 false "failed" "Mean depth" st1 with
    | error e => rw [h2] at h; exact Except.noConfusion h
    | ok st2 =>
    rw [h2] at h
    dsimp only at h
    cases h3 : thresholdCheck m t "max_missing_rate" "missing_data_percentage"
        100 true "failed" "Missing data percentage" st2 with
    | error e => rw [h3] at h; exact Except.noConfusion h
    | ok st3 =>
    rw [h3] at h
    dsimp only at h
    injection h with h
    subst h
    exact thresholdCheck_inv h3 (by decide)
      (thresholdCheck_inv h2 (by decide)
        (thresholdCheck_inv h1 (by decide) (by simp)))

/-- Witness for C10: a concrete violated min-quality threshold yields the
failed status together with a non-empty failed_checks list. -/
theorem C10_witness :
    fastq_check_thresholds [("avg_quality_score", 10)] [("min_quality_score", 20)] =
      .ok ⟨"failed", [⟨"Average quality score", 10, 20⟩]⟩ ∧
    ((QCResult.mk "failed" [⟨"Average quality score", 10, 20⟩]).status ≠ "passed" ↔
      (QCResult.mk "failed" [⟨"Average quality score", 10, 20⟩]).failed_checks ≠ []) :=
  ⟨by decide,
    C10_status_iff_failed_checks.1 [("avg_quality_score", 10)]
      [("min_quality_score", 20)]
      ⟨"failed", [⟨"Average quality score", 10, 20⟩]⟩ (by decide)⟩

/-- C1: evaluation of FastqQCEngine.check_thresholds on a snapshot that
violates both the hard min_quality_score threshold (15 below 20) and the
soft max_gc_content threshold (70 above 60).  Both failure descriptions
are appended, but the returned status is the warning status, not the
failed status: the later GC block overwrites the status instead of keeping
the most severe value, so the hard failure is downgraded. -/
theorem C1_code_evaluation :
    fastq_check_thresholds [("avg_quality_score", 15), ("gc_content", 70)]
        [("min_quality_score", 20), ("max_gc_content", 60)] =
      .ok ⟨"warning",
        [⟨"Average quality score", 15, 20⟩, ⟨"GC content", 70, 60⟩]⟩ ∧
    ("warning" : String) ≠ "failed" := by
  exact ⟨by decide, by decide⟩

/-- C3 counterexample: with an empty metrics snapshot, a present threshold
whose metric key is missing does not surface as an appended check failure;
the f-string of the failure description reads metrics[key] strictly and
raises a KeyError (for both min-type and max-type blocks, the latter
comparing against a 100 default, not 0), while a min-type threshold with a
non-positive bound lets the missing metric pass silently. -/
theorem C3_counterexample :
    fastq_check_thresholds [] [("min_quality_score", 20)] =
      .error (keyErrorMsg "avg_quality_score") ∧
    bam_check_thresholds [] [("min_mapping_quality", 30)] =
      .error (keyErrorMsg "mean_mapping_quality") ∧
    fastq_check_thresholds [] [("max_n_percentage", 50)] =
      .error (keyErrorMsg "n_percentage") ∧
    fastq_check_thresholds [] [("min_quality_score", 0)] = .ok ⟨"passed", []⟩ :=
  ⟨by decide, by decide, by decide, by decide⟩

/-- C3 amended: in each engine, when the metric key of a strictly positive
min-type threshold is absent from the snapshot, the comparison fails
against the 0 default and the evaluator then raises a KeyError while
formatting the failure description, instead of returning a result. -/
theorem C3_missing_metric_behaviour :
    (∀ metrics thresholds b, metrics.lookup "avg_quality_score" = none →
        thresholds.lookup "min_quality_score" = some b → 0 < b →
        fastq_check_thresholds metrics thresholds =
          .error (keyErrorMsg "avg_quality_score")) ∧
    (∀ metrics thresholds b, metrics.lookup "mean_mapping_quality" = none →
        thresholds.lookup "min_mapping_quality" = some b → 0 < b →
        bam_check_thresholds metrics thresholds =
          .error (keyErrorMsg "mean_mapping_quality")) ∧
    (∀ metrics thresholds b, metrics.lookup "mean_variant_quality" = none →
        thresholds.lookup "min_variant_quality" = some b → 0 < b →
        vcf_check_thresholds metrics thresholds =
          .error (keyErrorMsg "mean_variant_quality")) := by
  refine ⟨?_, ?_, ?_⟩ <;> intro m t b hm ht hb
  · unfold fastq_check_thresholds
    rw [thresholdCheck_missing_min m t _ _ b _ _ _ hm ht hb]
  · unfold bam_check_thresholds
    rw [thresholdCheck_missing_min m t _ _ b _ _ _ hm ht hb]
  · unfold vcf_check_thresholds
    rw [thresholdCheck_missing_min m t _ _ b _ _ _ hm ht hb]

/-- Witness for the amended C3 statement at a concrete snapshot that has
some other key but no avg_quality_score. -/
theorem C3_witness :
    fastq_check_thresholds [("gc_content", 50)] [("min_quality_score", 20)] =
      .error (keyErrorMsg "avg_quality_score") :=
  C3_missing_metric_behaviour.1 [("gc_content", 50)] [("min_quality_score", 20)]
    20 (by decide) (by decide) (by decide)
/-- Model of a file on disk as seen through a decoded text line stream:
either the path does not exist (os.stat raises), or the file is present
with a byte size, a readability flag (used by the validators' basic
checks), and the list of lines that successive readline calls produce,
each either a line (without its trailing newline) or a raised read fault
(for example a corrupt gzip stream; such faults surface in both the
plain and the errors-replace text modes used by the source).  End of file
is the end of the list: a real readline never returns an empty string
before end of file, so a mid-file blank line is modelled as an ok empty
string, which is truthy in the source because the raw line still holds
its newline. -/
inductive FsFile where
  | missing
  | present (sizeBytes : ℕ) (readable : Bool) (reads : List (Except String String))
deriving Repr, DecidableEq

/-- Model of BaseQCEngine.get_file_size_mb; on a missing path the stat
call raises. -/
def get_file_size_mb : FsFile → Except String ℚ
  | .missing => .error "[Errno 2] No such file or directory"
  | .present sizeBytes _ _ => .ok ((sizeBytes : ℚ) / (1024 * 1024))

/-- Occurrences of one character in a string. -/
def countChar (s : String) (c : Char) : ℕ := s.data.count c

/-- Sum of ord(c) - 33 over the characters of a Phred quality string. -/
def phredSum (quality : String) : ℤ :=
  (quality.data.map (fun c => (c.toNat : ℤ) - 33)).sum

/-- Number of quality characters whose Phred score ord(c) - 33 is at
least the given bound. -/
def phredCountGE (quality : String) (bound : ℤ) : ℕ :=
  quality.data.countP (fun c => bound ≤ (c.toNat : ℤ) - 33)

/-- Metrics snapshot produced by FastqQCEngine.calculate_metrics.  The
min_read_length value none models the float infinity sentinel; the error
field models the error key added when an exception is captured. -/
structure FastqMetrics where
  file_size_mb : ℚ
  total_reads : ℕ
  avg_read_length : ℚ
  min_read_length : Option ℕ
  max_read_length : ℕ
  avg_quality_score : ℚ
  n_percentage : ℚ
  gc_content : ℚ
  q20_percentage : ℚ
  q30_percentage : ℚ
  error : Option String
deriving Repr, DecidableEq

/-- Loop state of the scan in FastqQCEngine.calculate_metrics: the metrics
dict (whose min and max read length entries are updated inside the loop)
plus the local counters. -/
structure FastqScanState where
  metrics : FastqMetrics
  total_length : ℕ
  total_quality : ℤ
  total_n_count : ℕ
  total_gc_count : ℕ
  total_bases : ℕ
  total_q20 : ℕ
  total_q30 : ℕ
  reads_analyzed : ℕ
deriving Repr, DecidableEq

/-- Outcome of reading one four-line FASTQ record inside the metrics loop:
either a readline raised (fault), or a falsy value stopped the loop (the
header was empty at end of file, or one of the stripped sequence and
quality strings was empty, or the separator was empty at end of file), or
a record with its stripped sequence and quality was obtained. -/
inductive FqParse where
  | stop
  | fault (e : String)
  | record (sequence quality : String) (rest : List (Except String String))
deriving Repr, DecidableEq

/-- Reading one record of the metrics loop of calculate_metrics: four
readline calls (header unused beyond its truthiness, sequence and quality
stripped), stopping at a falsy header and at a falsy member of
[sequence, separator, quality]; a raised readline surfaces in call order. -/
def parseFastqRecord : List (Except String String) → FqParse
  | [] => .stop
  | .error e :: _ => .fault e
  | [.ok _] => .stop
  | .ok _ :: .error e :: _ => .fault e
  | [.ok _, .ok _] => .stop
  | .ok _ :: .ok _ :: .error e :: _ => .fault e
  | [.ok _, .ok _, .ok _] => .stop
  | .ok _ :: .ok _ :: .ok _ :: .error e :: _ => .fault e
  | .ok _ :: .ok s :: .ok _ :: .ok q :: rest =>
    if pyStrip s = "" ∨ pyStrip q = "" then .stop
    else .record (pyStrip s) (pyStrip q) rest

/-- A parsed record has a non-empty sequence and quality and consumed
exactly four stream elements. -/
lemma parseFastqRecord_record (reads : List (Except String String))
    (s q : String) (rest : List (Except String String))
    (h : parseFastqRecord reads = .record s q rest) :
    s ≠ "" ∧ q ≠ "" ∧ reads.length = rest.length + 4 := by
  rcases reads with _ | ⟨e1 | a, _ | ⟨e2 | b, _ | ⟨e3 | c, _ | ⟨e4 | d, tl⟩⟩⟩⟩ <;>
    simp only [parseFastqRecord] at h
  all_goals try exact FqParse.noConfusion h
  split at h
  · exact FqParse.noConfusion h
  · injection h with hs hq hrest
    subst hs
    subst hq
    subst hrest
    rename_i hguard
    rw [not_or] at hguard
    exact ⟨hguard.1, hguard.2, by simp⟩

/-- The while loop of FastqQCEngine.calculate_metrics.  The source loop
runs while reads_analyzed is below sample_size and increments
reads_analyzed by exactly one per processed record, so the number of free
sample slots, sample_size - reads_analyzed, decreases by one per
iteration; the loop is phrased by recursion on that quantity (the caller
starts it at sample_size, since reads_analyzed starts at 0).  A fault is
the captured exception (second component), a stop ends the loop
normally. -/
def fastqScanLoop : ℕ → FastqScanState → List (Except String String) →
    FastqScanState × Option String
  | 0, st, _ => (st, none)
  | slots + 1, st, reads =>
    match parseFastqRecord reads with
    | .fault e => (st, some e)
    | .stop => (st, none)
    | .record s q rest =>
      fastqScanLoop slots
        { st with
          metrics := { st.metrics with
            min_read_length := some (match st.metrics.min_read_length with
              | none => s.length
              | some m => min m s.length),
            max_read_length := max st.metrics.max_read_length s.length },
          total_length := st.total_length + s.length,
          total_quality := st.total_quality + phredSum q,
          total_n_count := st.total_n_count + countChar (pyUpper s) 'N',
          total_gc_count := st.total_gc_count + countChar (pyUpper s) 'G' + countChar (pyUpper s) 'C',
          total_bases := st.total_bases + s.length,
          total_q20 := st.total_q20 + phredCountGE q 20,
          total_q30 := st.total_q30 + phredCountGE q 30,
          reads_analyzed := st.reads_analyzed + 1 }
        rest

/-- Default-initialized metrics dict of calculate_metrics, with the file
size already computed. -/
def fastqMetricsInit (sizeMB : ℚ) : FastqMetrics :=
  { file_size_mb := sizeMB
    total_reads := 0
    avg_read_length := 0
    min_read_length := none
    max_read_length := 0
    avg_quality_score := 0
    n_percentage := 0
    gc_content := 0
    q20_percentage := 0
    q30_percentage := 0
    error := none }

/-- Embedding of FastqQCEngine.calculate_metrics (fastq_qc.py).  The
file-size stat runs before the try block, so a missing file raises to the
caller; every exception inside the scan is captured into the error field
with the metrics accumulated so far (no finalization runs on that path,
so the infinity sentinel of min_read_length is not reset there); on
normal completion the derived metrics are filled in when at least one
read was analyzed, with divide-by-zero guards, and the infinity sentinel
of min_read_length is reset to 0. -/
def fastq_calculate_metrics (f : FsFile) (sample_size : ℕ) :
    Except String FastqMetrics :=
  match f with
  | .missing => .error "[Errno 2] No such file or directory"
  | .present sizeBytes _ reads =>
    let metrics0 := fastqMetricsInit ((sizeBytes : ℚ) / (1024 * 1024))
    match fastqScanLoop sample_size ⟨metrics0, 0, 0, 0, 0, 0, 0, 0, 0⟩ reads with
    | (st, some e) => .ok { st.metrics with error := some e }
    | (st, none) =>
      let m := st.metrics
      let m :=
        if 0 < st.reads_analyzed then
          { m with
            total_reads := st.reads_analyzed,
            avg_read_length := (st.total_length : ℚ) / (st.reads_analyzed : ℚ),
            n_percentage :=
              if 0 < st.total_bases then
                (st.total_n_count : ℚ) / (st.total_bases : ℚ) * 100 else 0,
            gc_content :=
              if 0 < st.total_bases then
                (st.total_gc_count : ℚ) / (st.total_bases : ℚ) * 100 else 0,
            avg_quality_score :=
              if 0 < st.total_bases then
                (st.total_quality : ℚ) / (st.total_bases : ℚ) else 0,
            q20_percentage :=
              if 0 < st.total_bases then
                (st.total_q20 : ℚ) / (st.total_bases : ℚ) * 100 else 0,
            q30_percentage :=
              if 0 < st.total_bases then
                (st.total_q30 : ℚ) / (st.total_bases : ℚ) * 100 else 0 }
        else m
      let m :=
        if m.min_read_length = none then { m with min_read_length := some 0 }
        else m
      .ok m

/-- Records that the metrics loop samples from a stream when the given
number of sample slots is still free, as (stripped sequence, stripped
quality) pairs. -/
def sampledRecords : List (Except String String) → ℕ → List (String × String)
  | _, 0 => []
  | reads, slots + 1 =>
    match parseFastqRecord reads with
    | .record s q rest => (s, q) :: sampledRecords rest slots
    | _ => []

/-- A non-empty string has positive length. -/
lemma string_length_pos (s : String) (h : s ≠ "") : 0 < s.length := by
  cases s with
  | mk data =>
    cases data with
    | nil => exact absurd rfl h
    | cons a l => simp [String.length]

/-- Accounting of the metrics scan loop: on a run that ends without a
captured exception, the quality sum, the base total and the number of
analyzed reads equal the starting values plus the corresponding sums over
the sampled records, and each sampled record contributes at least one
base. -/
theorem fastqScanLoop_spec (slots : ℕ) (reads : List (Except String String))
    (st : FastqScanState) (out : FastqScanState × Option String)
    (hout : fastqScanLoop slots st reads = out) (h2 : out.2 = none) :
    out.1.total_quality = st.total_quality +
      ((sampledRecords reads slots).map (fun p => phredSum p.2)).sum ∧
    out.1.total_bases = st.total_bases +
      ((sampledRecords reads slots).map (fun p => p.1.length)).sum ∧
    out.1.reads_analyzed = st.reads_analyzed +
      (sampledRecords reads slots).length ∧
    st.total_bases + (sampledRecords reads slots).length ≤
      out.1.total_bases := by
  induction slots generalizing reads st out with
  | zero =>
    rw [fastqScanLoop] at hout
    subst hout
    simp [sampledRecords]
  | succ k ih =>
    rw [fastqScanLoop] at hout
    split at hout
    · subst hout
      simp at h2
    · subst hout
      rename_i hp
      rw [show sampledRecords reads (k + 1) = [] from by
        simp [sampledRecords, hp]]
      simp
    · rename_i s q rest hp
      have hrec : sampledRecords reads (k + 1) = (s, q) :: sampledRecords rest k := by
        simp [sampledRecords, hp]
      have hih := ih rest _ out hout
      dsimp only at hih
      obtain ⟨i1, i2, i3, i4⟩ := hih h2
      have hslen : 0 < s.length :=
        string_length_pos s (parseFastqRecord_record reads s q rest hp).1
      rw [hrec]
      simp only [List.map_cons, List.sum_cons, List.length_cons]
      refine ⟨by rw [i1]; ring, by rw [i2]; ring, by rw [i3]; ring, by omega⟩

/-- On a line stream with no read faults, one record parse either stops or
yields a record whose remaining stream is the stream of the lines four
further on. -/
lemma parseFastqRecord_map_ok (lines : List String) :
    parseFastqRecord (lines.map Except.ok) = .stop ∨
    ∃ (s q : String) (tl : List String), lines.length = tl.length + 4 ∧
      parseFastqRecord (lines.map Except.ok) = .record s q (tl.map Except.ok) := by
  rcases lines with _ | ⟨a, _ | ⟨b, _ | ⟨c, _ | ⟨d, tl⟩⟩⟩⟩ <;>
    simp only [List.map_cons, List.map_nil, parseFastqRecord]
  · exact Or.inl trivial
  · exact Or.inl trivial
  · exact Or.inl trivial
  · exact Or.inl trivial
  · by_cases hg : pyStrip b = "" ∨ pyStrip d = ""
    · rw [if_pos hg]
      exact Or.inl rfl
    · rw [if_neg hg]
      exact Or.inr ⟨pyStrip b, pyStrip d, tl, by simp, rfl⟩

/-- The metrics scan of a stream with no read faults never captures an
exception. -/
theorem fastqScanLoop_ok_stream (slots : ℕ) (lines : List String)
    (st : FastqScanState) :
    (fastqScanLoop slots st (lines.map Except.ok)).2 = none := by
  induction slots generalizing lines st with
  | zero => rw [fastqScanLoop]
  | succ k ih =>
    rw [fastqScanLoop]
    split
    · rename_i e hp
      rcases parseFastqRecord_map_ok lines with hstop | ⟨s, q, tl, hlen, hrec⟩
      · rw [hstop] at hp
        exact FqParse.noConfusion hp
      · rw [hrec] at hp
        exact FqParse.noConfusion hp
    · rfl
    · rename_i s q rest hp
      rcases parseFastqRecord_map_ok lines with hstop | ⟨s', q', tl, hlen, hrec⟩
      · rw [hstop] at hp
        exact FqParse.noConfusion hp
      · rw [hrec] at hp
        injection hp with h1 h2 h3
        subst h3
        exact ih tl _

/-- A scan that samples no record leaves the loop state untouched. -/
lemma fastqScanLoop_nil (slots : ℕ) (reads : List (Except String String))
    (st : FastqScanState) (h : sampledRecords reads slots = []) :
    (fastqScanLoop slots st reads).1 = st := by
  cases slots with
  | zero => rw [fastqScanLoop]
  | succ k =>
    rw [fastqScanLoop]
    split
    · rfl
    · rfl
    · rename_i s q rest hp
      rw [show sampledRecords reads (k + 1) = (s, q) :: sampledRecords rest k
        from by simp [sampledRecords, hp]] at h
      exact absurd h (by simp)
/-- C4: for a FASTQ file (a fault-free line stream) all of whose sampled
records have sequence and quality strings of equal length, the
avg_quality_score of the returned snapshot is the arithmetic mean of
ord(c) - 33 over all quality characters of the sampled records (stated
exactly over the rational model of float arithmetic; the quotient 0/0 for
an empty sample is 0 on both sides, matching the divide-by-zero guard).
Sampling is bounded by sample_size records. -/
theorem C4_avg_quality_is_mean (lines : List String) (n : ℕ) (rd : Bool)
    (ss : ℕ) (m : FastqMetrics)
    (hok : fastq_calculate_metrics (.present n rd (lines.map Except.ok)) ss = .ok m)
    (hlen : ∀ p ∈ sampledRecords (lines.map Except.ok) ss,
      (p : String × String).1.length = p.2.length) :
    m.avg_quality_score =
      (((sampledRecords (lines.map Except.ok) ss).map (fun p => phredSum p.2)).sum : ℚ) /
      (((sampledRecords (lines.map Except.ok) ss).map (fun p => (p.2.length : ℚ))).sum) := by
  unfold fastq_calculate_metrics at hok
  dsimp only at hok
  split at hok
  · rename_i st e heq
    have hnf := fastqScanLoop_ok_stream ss lines
      ⟨fastqMetricsInit ((n : ℚ) / (1024 * 1024)), 0, 0, 0, 0, 0, 0, 0, 0⟩
    rw [heq] at hnf
    simp at hnf
  · rename_i st heq
    injection hok with hok
    subst hok
    have ih := fastqScanLoop_spec ss (lines.map Except.ok)
      ⟨fastqMetricsInit ((n : ℚ) / (1024 * 1024)), 0, 0, 0, 0, 0, 0, 0, 0⟩
      (st, none) heq rfl
    dsimp only at ih
    obtain ⟨i1, i2, i3, i4⟩ := ih
    rw [zero_add] at i1 i2 i3
    rw [zero_add] at i4
    rcases hrecs : sampledRecords (lines.map Except.ok) ss with _ | ⟨p0, recs⟩
    · rw [hrecs] at i1 i2 i3
      simp at i1 i2 i3
      have hst : st = ⟨fastqMetricsInit ((n : ℚ) / (1024 * 1024)), 0, 0, 0, 0, 0, 0, 0, 0⟩ := by
        have := fastqScanLoop_nil ss (lines.map Except.ok)
          ⟨fastqMetricsInit ((n : ℚ) / (1024 * 1024)), 0, 0, 0, 0, 0, 0, 0, 0⟩
          hrecs
        rw [heq] at this
        exact this
      subst hst
      simp [fastqMetricsInit]
    · rw [hrecs] at i1 i2 i3 i4 hlen
      have hr : 0 < st.reads_analyzed := by
        rw [i3]
        exact Nat.succ_pos recs.length
      have hb : 0 < st.total_bases := by
        have hpos : 0 < (p0 :: recs).length := Nat.succ_pos recs.length
        omega
      rw [if_pos hr]
      rw [show ∀ (x : FastqMetrics),
          ((if x.min_read_length = none then { x with min_read_length := some 0 }
            else x) : FastqMetrics).avg_quality_score = x.avg_quality_score from
        fun x => by split <;> rfl]
      rw [if_pos hb]
      have hmaps : List.map (fun p => p.1.length) (p0 :: recs) =
          List.map (fun p => p.2.length) (p0 :: recs) :=
        List.map_congr_left hlen
      have hden : ((st.total_bases : ℚ)) =
          (List.map (fun p => (p.2.length : ℚ)) (p0 :: recs)).sum := by
        rw [i2, hmaps, Nat.cast_list_sum, List.map_map]
        rfl
      rw [i1, hden]

/-- Witness for C4 at a file of one record of length 4 with all quality
characters I (Phred 40). -/
theorem C4_witness :
    ∃ m, fastq_calculate_metrics
        (.present 30 true (["@r1", "ACGT", "+", "IIII"].map Except.ok)) 10000 =
      .ok m ∧
    m.avg_quality_score =
      (((sampledRecords (["@r1", "ACGT", "+", "IIII"].map Except.ok) 10000).map
          (fun p => phredSum p.2)).sum : ℚ) /
      (((sampledRecords (["@r1", "ACGT", "+", "IIII"].map Except.ok) 10000).map
          (fun p => (p.2.length : ℚ))).sum) :=
  ⟨_, rfl,
    C4_avg_quality_is_mean ["@r1", "ACGT", "+", "IIII"] 30 true 10000 _ rfl
      (by decide)⟩
/-- Apostrophe character, used to reproduce the source message texts. -/
def apos : String := String.singleton (Char.ofNat 39)

/-- Error message of FastqValidator for a record with fewer than four
lines. -/
def incompleteMsg (n : ℕ) : String :=
  "Incomplete FASTQ record at line " ++ toString n

/-- Error message of FastqValidator for a header that does not start
with @. -/
def invalidHeaderMsg (n : ℕ) : String :=
  "Invalid header at line " ++ toString n ++ ": doesn" ++ apos ++
    "t start with @"

/-- Error message of FastqValidator for a separator that does not start
with +. -/
def invalidSeparatorMsg (n : ℕ) : String :=
  "Invalid separator at line " ++ toString n ++ ": doesn" ++ apos ++
    "t start with +"

/-- Error message of FastqValidator for a record whose stripped sequence
and quality lengths differ. -/
def lengthMismatchMsg (n : ℕ) : String :=
  "Sequence and quality lengths don" ++ apos ++ "t match at line " ++
    toString n

/-- Warning of FastqValidator for sequence characters outside ACGTN; the
source message also interpolates the set of offending characters, which
no claim reads and which is elided here. -/
def nonStandardCharsMsg (n : ℕ) : String :=
  "Non-standard characters in sequence at line " ++ toString n

/-- Error message of FastqValidator when the bounded scan checked zero
records. -/
def noRecordsMsg : String := "No valid FASTQ records found"

/-- The nucleotide characters the validator accepts without a warning. -/
def validNucleotideChars : List Char := "ACGTNacgtn".data

/-- Result of the record loop of FastqValidator.validate_format: the loop
ends normally with the number of records checked, or appends one error and
returns False (structFail), or an exception is caught by the surrounding
handler (exn). -/
inductive FqValStep where
  | done (records_checked : ℕ) (warnings : List String)
  | structFail (err : String) (warnings : List String)
  | exn (e : String) (warnings : List String)
deriving Repr, DecidableEq

/-- The record loop of FastqValidator.validate_format: while fewer than
max_records_check records are checked, read four lines (the loop breaks at
an empty header, which is end of file); line_number grows by four per
record before the checks, and each message cites the line the source
computes from it.  A record with any empty line among the remaining three
is an incomplete record; then the header must start with @, the separator
with +, and the stripped sequence and quality lengths must agree;
sequence characters outside ACGTN add a warning only. -/
def fqValLoop (records_checked line_number : ℕ) (warnings : List String)
    (reads : List (Except String String)) (maxRecords : ℕ) : FqValStep :=
  if maxRecords ≤ records_checked then .done records_checked warnings
  else
    match reads with
    | [] => .done records_checked warnings
    | .error e :: _ => .exn e warnings
    | [.ok _] => .structFail (incompleteMsg (line_number + 1)) warnings
    | .ok _ :: .error e :: _ => .exn e warnings
    | [.ok _, .ok _] => .structFail (incompleteMsg (line_number + 1)) warnings
    | .ok _ :: .ok _ :: .error e :: _ => .exn e warnings
    | [.ok _, .ok _, .ok _] =>
      .structFail (incompleteMsg (line_number + 1)) warnings
    | .ok _ :: .ok _ :: .ok _ :: .error e :: _ => .exn e warnings
    | .ok header :: .ok sequence :: .ok separator :: .ok quality :: rest =>
      if ¬ pyStartsWith header "@" then
        .structFail (invalidHeaderMsg (line_number + 1)) warnings
      else if ¬ pyStartsWith separator "+" then
        .structFail (invalidSeparatorMsg (line_number + 3)) warnings
      else if (pyStrip sequence).length ≠ (pyStrip quality).length then
        .structFail (lengthMismatchMsg (line_number + 1)) warnings
      else
        fqValLoop (records_checked + 1) (line_number + 4)
          (if ¬ ((pyStrip sequence).data.all (fun c => c ∈ validNucleotideChars))
            then warnings ++ [nonStandardCharsMsg (line_number + 2)]
            else warnings)
          rest maxRecords

/-- Embedding of FastqValidator.validate_format (fastq_validator.py),
returning (validity, errors, warnings).  The basic file checks run first
(the unreadable-file message interpolates the caught exception text,
elided here); then the bounded record loop; zero checked records is
itself an error; a raised readline is caught and reported as a reading
error. -/
def FastqValidator.validate_format (filepath : String) (f : FsFile)
    (max_records_check : ℕ) : Bool × List String × List String :=
  match f with
  | .missing => (false, ["File does not exist: " ++ filepath], [])
  | .present sizeBytes readable reads =>
    if sizeBytes = 0 then (false, ["File is empty: " ++ filepath], [])
    else if ¬ readable then (false, ["File is not readable"], [])
    else
      match fqValLoop 0 0 [] reads max_records_check with
      | .structFail err ws => (false, [err], ws)
      | .exn e ws => (false, ["Error reading FASTQ file: " ++ e], ws)
      | .done k ws =>
        if k = 0 then (false, [noRecordsMsg], ws) else (true, [], ws)
/-- C6 counterexample: the four-line file with header @h, an empty
sequence line, separator + and an empty quality line.  The metrics
accumulator stops at the falsy stripped sequence and samples zero records
(total_reads stays 0, and the sentinel reset gives min_read_length 0),
but the validator accepts the very same record (all four raw lines are
non-empty and the stripped lengths agree as 0 = 0) and returns valid with
no errors at all, contradicting the claimed "No valid FASTQ records
found" error. -/
theorem C6_counterexample :
    (∃ m, fastq_calculate_metrics
        (.present 9 true (["@h", "", "+", ""].map Except.ok)) 10000 = .ok m ∧
      m.error = none ∧ m.total_reads = 0 ∧ m.min_read_length = some 0) ∧
    FastqValidator.validate_format "reads.fastq"
      (.present 9 true (["@h", "", "+", ""].map Except.ok)) 1000 =
      (true, [], []) :=
  ⟨⟨_, rfl, rfl, rfl, rfl⟩, by decide⟩

/-- C6 amended: on a fault-free stream, a completed scan that sampled
zero records returns min_read_length 0 (the sentinel reset); and the
validator reports the "No valid FASTQ records found" error exactly in the
case its own record scan reads zero records after the basic file checks
pass, that is, when the decoded line stream is empty (for example a
gzip file whose decompressed content is empty). -/
theorem C6_zero_records_behaviour :
    (∀ (lines : List String) (n : ℕ) (rd : Bool) (ss : ℕ) (m : FastqMetrics),
      fastq_calculate_metrics (.present n rd (lines.map Except.ok)) ss = .ok m →
      m.total_reads = 0 → m.min_read_length = some 0) ∧
    (∀ filepath n maxRecords, n ≠ 0 →
      FastqValidator.validate_format filepath (.present n true []) maxRecords =
        (false, [noRecordsMsg], [])) := by
  constructor
  · intro lines n rd ss m hok h0
    unfold fastq_calculate_metrics at hok
    dsimp only at hok
    split at hok
    · rename_i st e heq
      have hnf := fastqScanLoop_ok_stream ss lines
        ⟨fastqMetricsInit ((n : ℚ) / (1024 * 1024)), 0, 0, 0, 0, 0, 0, 0, 0⟩
      rw [heq] at hnf
      simp at hnf
    · rename_i st heq
      injection hok with hok
      subst hok
      by_cases hr : 0 < st.reads_analyzed
      · exfalso
        rw [show ∀ (x : FastqMetrics),
            ((if x.min_read_length = none then { x with min_read_length := some 0 }
              else x) : FastqMetrics).total_reads = x.total_reads from
          fun x => by split <;> rfl] at h0
        rw [if_pos hr] at h0
        dsimp only at h0
        omega
      · obtain ⟨i1, i2, i3, i4⟩ := fastqScanLoop_spec ss (lines.map Except.ok)
          ⟨fastqMetricsInit ((n : ℚ) / (1024 * 1024)), 0, 0, 0, 0, 0, 0, 0, 0⟩
          (st, none) heq rfl
        dsimp only at i3
        rw [zero_add] at i3
        have hrecs : sampledRecords (lines.map Except.ok) ss = [] := by
          have : (sampledRecords (lines.map Except.ok) ss).length = 0 := by omega
          exact List.length_eq_zero.mp this
        have hnil := fastqScanLoop_nil ss (lines.map Except.ok)
          ⟨fastqMetricsInit ((n : ℚ) / (1024 * 1024)), 0, 0, 0, 0, 0, 0, 0, 0⟩
          hrecs
        rw [heq] at hnil
        dsimp only at hnil
        subst hnil
        simp [fastqMetricsInit]
  · intro filepath n maxR hn
    unfold FastqValidator.validate_format
    dsimp only
    rw [if_neg hn]
    have hloop : fqValLoop 0 0 [] ([] : List (Except String String)) maxR =
        .done 0 [] := by
      rw [fqValLoop]
      split
      · rfl
      · rfl
    rw [if_neg (show ¬¬(true = true) from by simp)]
    rw [hloop]
    rfl
/-- Witness for the amended C6 statement: an ordinary empty sample (no
lines at all) on the metrics side, and a present, non-empty, readable
file with an empty decoded line stream on the validator side. -/
theorem C6_witness :
    (∃ m, fastq_calculate_metrics (.present 4 true (([] : List String).map Except.ok)) 10000 =
        .ok m ∧ m.min_read_length = some 0) ∧
    FastqValidator.validate_format "content.fastq.gz" (.present 4 true []) 1000 =
      (false, [noRecordsMsg], []) :=
  ⟨⟨_, rfl, C6_zero_records_behaviour.1 [] 4 true 10000 _ rfl rfl⟩,
    C6_zero_records_behaviour.2 "content.fastq.gz" 4 1000 (by decide)⟩

/-- The four-line groups of a stream that are fully present with no read
fault, in order; the validator iterates over exactly these groups. -/
def completeGroups : List (Except String String) →
    List (String × String × String × String)
  | .ok a :: .ok b :: .ok c :: .ok d :: rest => (a, b, c, d) :: completeGroups rest
  | _ => []

/-- If the validator record loop ends normally (done), every complete
group it visited passed all checks; in particular the stripped sequence
and quality lengths of every complete group within the remaining record
budget agree.  Stated by induction on the remaining budget. -/
lemma fqValLoop_done_groups (j : ℕ) :
    ∀ (reads : List (Except String String)) (rc ln : ℕ) (ws : List String)
      (maxR k : ℕ) (ws' : List String), maxR - rc = j →
    fqValLoop rc ln ws reads maxR = .done k ws' →
    ∀ g ∈ (completeGroups reads).take j,
      (pyStrip (g : String × String × String × String).2.1).length =
        (pyStrip g.2.2.2).length := by
  induction j with
  | zero =>
    intro reads rc ln ws maxR k ws' hj h
    simp
  | succ j ih =>
    intro reads rc ln ws maxR k ws' hj h
    rw [fqValLoop.eq_def] at h
    split at h
    · rename_i hc
      omega
    · split at h
      · simp [completeGroups]
      · exact FqValStep.noConfusion h
      · rw [show completeGroups [Except.ok _] = [] from rfl]
        simp
      · exact FqValStep.noConfusion h
      · rw [show completeGroups [Except.ok _, Except.ok _] = [] from rfl]
        simp
      · exact FqValStep.noConfusion h
      · rw [show completeGroups [Except.ok _, Except.ok _, Except.ok _] = [] from rfl]
        simp
      · exact FqValStep.noConfusion h
      · rename_i header sequence separator quality rest
        split at h
        · exact FqValStep.noConfusion h
        · split at h
          · exact FqValStep.noConfusion h
          · split at h
            · exact FqValStep.noConfusion h
            · rename_i hmm
              rw [show completeGroups
                  (Except.ok header :: Except.ok sequence :: Except.ok separator ::
                    Except.ok quality :: rest) =
                (header, sequence, separator, quality) :: completeGroups rest from rfl]
              rw [List.take_succ_cons]
              intro g hg
              rcases List.mem_cons.mp hg with hg1 | hg1
              · subst hg1
                dsimp only
                omega
              · exact ih rest (rc + 1) (ln + 4) _ maxR k ws' (by omega) h g hg1
/-- C7 counterexample: a single-record file whose record has mismatched
sequence and quality lengths (AC against A) but also a header that does
not start with @.  validate_format returns False, but its only error is
the invalid-header message for line 1; no error names the length
mismatch. -/
theorem C7_counterexample :
    FastqValidator.validate_format "reads.fastq"
      (.present 8 true (["X", "AC", "+", "A"].map Except.ok)) 1000 =
      (false, [invalidHeaderMsg 1], []) ∧
    (pyStrip "AC").length ≠ (pyStrip "A").length ∧
    lengthMismatchMsg 1 ∉ [invalidHeaderMsg 1] :=
  ⟨by decide, by decide, by decide⟩

/-- C7 amended: if any complete record among the first max_records_check
records has mismatched stripped sequence and quality lengths, then
validate_format returns False (the scan cannot end with all checks
passed); and when the offending record is the first record and its header
and separator are well-formed, the single error is the length-mismatch
message citing line 1. -/
theorem C7_length_mismatch_behaviour :
    (∀ (filepath : String) (n : ℕ) (rd : Bool)
        (reads : List (Except String String)) (maxR : ℕ),
      (∃ g ∈ (completeGroups reads).take maxR,
        (pyStrip (g : String × String × String × String).2.1).length ≠
          (pyStrip g.2.2.2).length) →
      (FastqValidator.validate_format filepath (.present n rd reads) maxR).1 =
        false) ∧
    (∀ (filepath : String) (n : ℕ) (h s sep q : String) (maxR : ℕ),
      n ≠ 0 → 1 ≤ maxR →
      pyStartsWith h "@" = true → pyStartsWith sep "+" = true →
      (pyStrip s).length ≠ (pyStrip q).length →
      FastqValidator.validate_format filepath
        (.present n true ([h, s, sep, q].map Except.ok)) maxR =
      (false, [lengthMismatchMsg 1], [])) := by
  constructor
  · intro filepath n rd reads maxR hex
    rcases hex with ⟨g, hg, hne⟩
    unfold FastqValidator.validate_format
    dsimp only
    split
    · rfl
    · split
      · rfl
      · split
        · rfl
        · rfl
        · rename_i k ws heq
          split
          · rfl
          · exfalso
            exact hne (fqValLoop_done_groups maxR reads 0 0 [] maxR k ws
              (by omega) heq g hg)
  · intro filepath n h s sep q maxR hn hmax hh hsep hne
    unfold FastqValidator.validate_format
    dsimp only [List.map_cons, List.map_nil]
    rw [if_neg hn]
    rw [if_neg (show ¬¬(true = true) from by simp)]
    rw [show fqValLoop 0 0 [] [Except.ok h, Except.ok s, Except.ok sep, Except.ok q] maxR =
        .structFail (lengthMismatchMsg 1) [] from by
      rw [fqValLoop.eq_def]
      rw [if_neg (by omega)]
      dsimp only
      rw [if_neg (by simp [hh])]
      rw [if_neg (by simp [hsep])]
      rw [if_pos hne]]

/-- Witness for the amended C7 statement: the general False part at the
bad-header file and the specific part at a single well-formed record with
mismatched lengths. -/
theorem C7_witness :
    (FastqValidator.validate_format "reads.fastq"
      (.present 8 true (["X", "AC", "+", "A"].map Except.ok)) 1000).1 = false ∧
    FastqValidator.validate_format "reads2.fastq"
      (.present 8 true (["@a", "AC", "+", "A"].map Except.ok)) 1000 =
      (false, [lengthMismatchMsg 1], []) :=
  ⟨C7_length_mismatch_behaviour.1 "reads.fastq" 8 true
      (["X", "AC", "+", "A"].map Except.ok) 1000 (by decide),
    C7_length_mismatch_behaviour.2 "reads2.fastq" 8 "@a" "AC" "+" "A" 1000
      (by decide) (by decide) (by decide) (by decide) (by decide)⟩
/-- Value of a list of decimal digit characters. -/
def digitsToNat (cs : List Char) : ℕ :=
  cs.foldl (fun a c => a * 10 + (c.toNat - 48)) 0

/-- Model of the Python float() parser for the plain signed decimal
numerals that appear in VCF QUAL columns (whitespace stripped, optional
sign, digits with an optional fractional part); any other text is a
ValueError, i.e. none.  Exponent and inf/nan forms are not modelled: the
source only ever skips on a ValueError, and the claims never exercise
them. -/
def parseDecimal (s : String) : Option ℚ :=
  let cs0 := (pyStrip s).data
  let sign : ℚ := match cs0 with
    | c :: _ => if c = Char.ofNat 45 then -1 else 1
    | [] => 1
  let cs := match cs0 with
    | c :: rest =>
      if c = Char.ofNat 45 then rest
      else if c = Char.ofNat 43 then rest else c :: rest
    | [] => []
  let ip := cs.takeWhile (fun c => c ≠ '.')
  let rest := cs.drop ip.length
  match rest with
  | [] =>
    if ip ≠ [] ∧ ip.all Char.isDigit then some (sign * digitsToNat ip)
    else none
  | _ :: fp =>
    if fp.contains '.' then none
    else if (ip ≠ [] ∨ fp ≠ []) ∧ ip.all Char.isDigit ∧ fp.all Char.isDigit then
      some (sign * ((digitsToNat ip : ℚ) + (digitsToNat fp : ℚ) / (10 : ℚ) ^ fp.length))
    else none

/-- Model of the Python int() parser (whitespace stripped, optional sign,
digits); any other text is a ValueError, i.e. none. -/
def parseIntZ (s : String) : Option ℤ :=
  let cs0 := (pyStrip s).data
  let sign : ℤ := match cs0 with
    | c :: _ => if c = Char.ofNat 45 then -1 else 1
    | [] => 1
  let cs := match cs0 with
    | c :: rest =>
      if c = Char.ofNat 45 then rest
      else if c = Char.ofNat 43 then rest else c :: rest
    | [] => []
  if cs ≠ [] ∧ cs.all Char.isDigit then some (sign * digitsToNat cs) else none

/-- Joining a list of strings with a separator (used to model taking the
text after the first occurrence of a substring). -/
def joinWith (sep : String) : List String → String
  | [] => ""
  | [x] => x
  | x :: xs => x ++ sep ++ joinWith sep xs

/-- Model of the Python substring test (x in y) for the single-character
strings the SNP classification guards on (the callers test it only under
a length-1 guard). -/
def isSub1 (s cs : String) : Bool :=
  cs.data.any (fun c => s = String.singleton c)

/-- Metrics snapshot produced by VcfQCEngine.calculate_metrics. -/
structure VcfMetrics where
  file_size_mb : ℚ
  total_variants : ℕ
  snp_count : ℕ
  indel_count : ℕ
  mean_variant_quality : ℚ
  mean_depth : ℚ
  missing_data_percentage : ℚ
  transition_transversion_ratio : ℚ
  error : Option String
deriving Repr, DecidableEq

/-- Local counters of the scan in VcfQCEngine.calculate_metrics. -/
structure VcfScanState where
  total_variants : ℕ
  snp_count : ℕ
  indel_count : ℕ
  total_qual : ℚ
  total_dp : ℤ
  missing_samples : ℕ
  total_samples : ℕ
  transitions : ℕ
  transversions : ℕ
deriving Repr, DecidableEq

/-- Variant classification block of the VCF data-line processing: SNP
(single-base differing REF and ALT, further split into transition for the
A/G and C/T pairs against transversion for other single-base pairs)
against indel (differing lengths). -/
def vcfClassify (st : VcfScanState) (ref alt : String) : VcfScanState :=
  if ref.length = 1 ∧ alt.length = 1 ∧ ref ≠ alt then
    let st : VcfScanState := { st with snp_count := st.snp_count + 1 }
    if (isSub1 ref "AG" ∧ isSub1 alt "AG") ∨
        (isSub1 ref "CT" ∧ isSub1 alt "CT") then
      { st with transitions := st.transitions + 1 }
    else if isSub1 ref "ACGT" ∧ isSub1 alt "ACGT" then
      { st with transversions := st.transversions + 1 }
    else st
  else if ref.length ≠ alt.length then
    { st with indel_count := st.indel_count + 1 }
  else st

/-- QUAL accumulation block: add the parsed quality unless the column is
the missing sentinel or fails to parse (ValueError is passed over). -/
def vcfAccumulateQual (st : VcfScanState) (qual_str : String) : VcfScanState :=
  if qual_str ≠ "." then
    match parseDecimal qual_str with
    | some q => { st with total_qual := st.total_qual + q }
    | none => st
  else st

/-- DP accumulation block: when DP= occurs in INFO, take the text after
its first occurrence up to the next semicolon and add it when it parses
as an integer (ValueError is passed over). -/
def vcfAccumulateDp (st : VcfScanState) (info : String) : VcfScanState :=
  let parts := pySplitOn info "DP="
  if 2 ≤ parts.length then
    let after := joinWith "DP=" parts.tail
    let valStr := (pySplitOn after ";").headD ""
    match parseIntZ valStr with
    | some dp => { st with total_dp := st.total_dp + dp }
    | none => st
  else st

/-- Missing-genotype block: count sample columns equal to the missing
sentinel or starting with ./., when the file declared samples. -/
def vcfCountMissing (st : VcfScanState) (columns : List String) : VcfScanState :=
  if 9 < columns.length ∧ 0 < st.total_samples then
    { st with missing_samples := st.missing_samples +
        ((columns.drop 9).filter
          (fun sc => sc = "." ∨ pyStartsWith sc "./.")).length }
  else st

/-- Full processing of one data line with at least 8 tab columns (the
length guard of the caller makes the out-of-range defaults of the column
reads dead). -/
def vcfDataLine (st : VcfScanState) (columns : List String) : VcfScanState :=
  let st : VcfScanState := { st with total_variants := st.total_variants + 1 }
  let st := vcfClassify st (columns.getD 3 "") (columns.getD 4 "")
  let st := vcfAccumulateQual st (columns.getD 5 "")
  let st := vcfAccumulateDp st (columns.getD 7 "")
  vcfCountMissing st columns

/-- Processing of one (stripped) line of the VCF scan: meta lines are
skipped; a #CHROM header line with more than 9 columns sets the sample
count; a data line is processed only while fewer than sample_size
variants are counted and only when it has at least 8 tab columns. -/
def vcfStep (sample_size : ℕ) (st : VcfScanState) (raw : String) : VcfScanState :=
  let line := pyStrip raw
  if pyStartsWith line "##" then st
  else if pyStartsWith line "#CHROM" then
    (let columns := pySplitOn line "	"
     if 9 < columns.length then { st with total_samples := columns.length - 9 }
     else st)
  else if (¬ pyStartsWith line "#") ∧ st.total_variants < sample_size then
    (let columns := pySplitOn line "	"
     if columns.length < 8 then st else vcfDataLine st columns)
  else st

/-- The line loop of VcfQCEngine.calculate_metrics: the source iterates
over the whole stream (the sample cutoff only stops the processing of
further data lines, not the iteration), and a raised readline is the
captured exception. -/
def vcfScanLoop (sample_size : ℕ) :
    VcfScanState → List (Except String String) → VcfScanState × Option String
  | st, [] => (st, none)
  | st, .error e :: _ => (st, some e)
  | st, .ok l :: rest => vcfScanLoop sample_size (vcfStep sample_size st l) rest

/-- Embedding of VcfQCEngine.calculate_metrics (vcf_qc.py).  The
file-size stat runs before the try block, so a missing file raises; scan
exceptions are captured into the error entry with the defaults otherwise
(the final assignments do not run on that path); the final ratios all
carry divide-by-zero guards, and the transition/transversion ratio is
assigned only when both counters are positive. -/
def vcf_calculate_metrics (f : FsFile) (sample_size : ℕ) :
    Except String VcfMetrics :=
  match f with
  | .missing => .error "[Errno 2] No such file or directory"
  | .present sizeBytes _ reads =>
    let m0 : VcfMetrics :=
      { file_size_mb := (sizeBytes : ℚ) / (1024 * 1024)
        total_variants := 0
        snp_count := 0
        indel_count := 0
        mean_variant_quality := 0
        mean_depth := 0
        missing_data_percentage := 0
        transition_transversion_ratio := 0
        error := none }
    match vcfScanLoop sample_size ⟨0, 0, 0, 0, 0, 0, 0, 0, 0⟩ reads with
    | (_, some e) => .ok { m0 with error := some e }
    | (st, none) =>
      let m := { m0 with
        total_variants := st.total_variants,
        snp_count := st.snp_count,
        indel_count := st.indel_count }
      let m :=
        if 0 < st.total_variants then
          { m with
            mean_variant_quality := st.total_qual / (st.total_variants : ℚ),
            mean_depth := (st.total_dp : ℚ) / (st.total_variants : ℚ) }
        else m
      let m :=
        if 0 < st.total_samples ∧ 0 < st.total_variants then
          (let total_genotypes := st.total_variants * st.total_samples
           if 0 < total_genotypes then
             { m with missing_data_percentage :=
                (st.missing_samples : ℚ) / (total_genotypes : ℚ) * 100 }
           else m)
        else m
      let m :=
        if 0 < st.transitions ∧ 0 < st.transversions then
          { m with transition_transversion_ratio :=
              (st.transitions : ℚ) / (st.transversions : ℚ) }
        else m
      .ok m
/-- The VCF scan of a fault-free stream is the fold of the step function
and captures no exception. -/
lemma vcfScanLoop_map_ok (ss : ℕ) (xs : List String) (st : VcfScanState) :
    vcfScanLoop ss st (xs.map Except.ok) = (xs.foldl (vcfStep ss) st, none) := by
  induction xs generalizing st with
  | nil => rfl
  | cons x xs ih =>
    simp only [List.map_cons, vcfScanLoop, List.foldl_cons]
    exact ih _

/-- A string starting with ## starts with #. -/
lemma startsWith_hash_of_hh (s : String) (h : pyStartsWith s "##" = true) :
    pyStartsWith s "#" = true := by
  unfold pyStartsWith at h ⊢
  rw [List.isPrefixOf_iff_prefix] at h ⊢
  exact List.IsPrefix.trans ⟨['#'], rfl⟩ h

/-- A string starting with #CHROM starts with #. -/
lemma startsWith_hash_of_chrom (s : String) (h : pyStartsWith s "#CHROM" = true) :
    pyStartsWith s "#" = true := by
  unfold pyStartsWith at h ⊢
  rw [List.isPrefixOf_iff_prefix] at h ⊢
  exact List.IsPrefix.trans ⟨"CHROM".data, rfl⟩ h

/-- The QUAL, DP and missing-genotype blocks never change the variant,
SNP, transition or transversion counters. -/
lemma vcfTail_preserves (st : VcfScanState) (q i : String) (cols : List String) :
    (vcfCountMissing (vcfAccumulateDp (vcfAccumulateQual st q) i) cols).total_variants
        = st.total_variants ∧
    (vcfCountMissing (vcfAccumulateDp (vcfAccumulateQual st q) i) cols).snp_count
        = st.snp_count ∧
    (vcfCountMissing (vcfAccumulateDp (vcfAccumulateQual st q) i) cols).transitions
        = st.transitions ∧
    (vcfCountMissing (vcfAccumulateDp (vcfAccumulateQual st q) i) cols).transversions
        = st.transversions := by
  unfold vcfCountMissing vcfAccumulateDp vcfAccumulateQual
  dsimp only
  refine ⟨?_, ?_, ?_, ?_⟩ <;> (repeat' split) <;> rfl

/-- A non-data line (a comment-style line or one with fewer than 8 tab
columns) never changes the variant, SNP, transition or transversion
counters. -/
lemma vcfStep_nonData (ss : ℕ) (st : VcfScanState) (l : String)
    (h : pyStartsWith (pyStrip l) "#" = true ∨
      (pySplitOn (pyStrip l) "	").length < 8) :
    (vcfStep ss st l).total_variants = st.total_variants ∧
    (vcfStep ss st l).snp_count = st.snp_count ∧
    (vcfStep ss st l).transitions = st.transitions ∧
    (vcfStep ss st l).transversions = st.transversions := by
  unfold vcfStep
  dsimp only
  by_cases h1 : pyStartsWith (pyStrip l) "##" = true
  · rw [if_pos h1]
    exact ⟨rfl, rfl, rfl, rfl⟩
  · rw [if_neg h1]
    by_cases h2 : pyStartsWith (pyStrip l) "#CHROM" = true
    · rw [if_pos h2]
      split
      · exact ⟨rfl, rfl, rfl, rfl⟩
      · exact ⟨rfl, rfl, rfl, rfl⟩
    · rw [if_neg h2]
      rcases h with h | h
      · rw [if_neg (show ¬((¬ pyStartsWith (pyStrip l) "#" = true) ∧
          st.total_variants < ss) from fun hc => hc.1 h)]
        exact ⟨rfl, rfl, rfl, rfl⟩
      · split <;> exact ⟨rfl, rfl, rfl, rfl⟩

/-- Folding the step over non-data lines preserves the four counters. -/
lemma vcfFoldl_nonData (ss : ℕ) (ls : List String) (st : VcfScanState)
    (h : ∀ l ∈ ls, pyStartsWith (pyStrip l) "#" = true ∨
      (pySplitOn (pyStrip l) "\t").length < 8) :
    (ls.foldl (vcfStep ss) st).total_variants = st.total_variants ∧
    (ls.foldl (vcfStep ss) st).snp_count = st.snp_count ∧
    (ls.foldl (vcfStep ss) st).transitions = st.transitions ∧
    (ls.foldl (vcfStep ss) st).transversions = st.transversions := by
  induction ls generalizing st with
  | nil => exact ⟨rfl, rfl, rfl, rfl⟩
  | cons x xs ih =>
    simp only [List.foldl_cons]
    have hx := vcfStep_nonData ss st x (h x (List.mem_cons_self x xs))
    have hxs := ih (vcfStep ss st x) (fun l hl => h l (List.mem_cons_of_mem x hl))
    exact ⟨hxs.1.trans hx.1, (hxs.2.1).trans hx.2.1,
      (hxs.2.2.1).trans hx.2.2.1, (hxs.2.2.2).trans hx.2.2.2⟩

/-- Classification of the A-to-G transition. -/
lemma vcfClassify_AG (st : VcfScanState) :
    vcfClassify st "A" "G" =
      { st with snp_count := st.snp_count + 1,
                transitions := st.transitions + 1 } := by
  unfold vcfClassify
  rw [if_pos (show ("A" : String).length = 1 ∧ ("G" : String).length = 1 ∧
    ("A" : String) ≠ "G" from by decide)]
  dsimp only
  rw [if_pos (show (isSub1 "A" "AG" = true ∧ isSub1 "G" "AG" = true) ∨
    (isSub1 "A" "CT" = true ∧ isSub1 "G" "CT" = true) from by decide)]

/-- Classification of the C-to-T transition. -/
lemma vcfClassify_CT (st : VcfScanState) :
    vcfClassify st "C" "T" =
      { st with snp_count := st.snp_count + 1,
                transitions := st.transitions + 1 } := by
  unfold vcfClassify
  rw [if_pos (show ("C" : String).length = 1 ∧ ("T" : String).length = 1 ∧
    ("C" : String) ≠ "T" from by decide)]
  dsimp only
  rw [if_pos (show (isSub1 "C" "AG" = true ∧ isSub1 "T" "AG" = true) ∨
    (isSub1 "C" "CT" = true ∧ isSub1 "T" "CT" = true) from by decide)]

/-- A data line holding a single-base transition substitution (A to G or
C to T in REF and ALT), processed under the sample cutoff, increments the
variant, SNP and transition counters and leaves the transversion counter
unchanged. -/
lemma vcfStep_transition (ss : ℕ) (st : VcfScanState) (d : String)
    (hcut : st.total_variants < ss)
    (h1 : ¬ pyStartsWith (pyStrip d) "#" = true)
    (h2 : ¬ (pySplitOn (pyStrip d) "	").length < 8)
    (href : ((pySplitOn (pyStrip d) "	").getD 3 "" = "A" ∧
        (pySplitOn (pyStrip d) "	").getD 4 "" = "G") ∨
      ((pySplitOn (pyStrip d) "	").getD 3 "" = "C" ∧
        (pySplitOn (pyStrip d) "	").getD 4 "" = "T")) :
    (vcfStep ss st d).total_variants = st.total_variants + 1 ∧
    (vcfStep ss st d).snp_count = st.snp_count + 1 ∧
    (vcfStep ss st d).transitions = st.transitions + 1 ∧
    (vcfStep ss st d).transversions = st.transversions := by
  unfold vcfStep
  dsimp only
  rw [if_neg (fun hh => h1 (startsWith_hash_of_hh _ hh))]
  rw [if_neg (fun hh => h1 (startsWith_hash_of_chrom _ hh))]
  rw [if_pos (And.intro h1 hcut)]
  rw [if_neg h2]
  unfold vcfDataLine
  dsimp only
  rcases href with ⟨hr, ha⟩ | ⟨hr, ha⟩
  · rw [hr, ha, vcfClassify_AG]
    exact vcfTail_preserves _ _ _ _
  · rw [hr, ha, vcfClassify_CT]
    exact vcfTail_preserves _ _ _ _
/-- C8: a VCF file whose data lines (lines not starting with # and with
at least 8 tab columns) are exactly two SNP records with REF/ALT pairs
A to G and C to T yields snp_count 2 and a transition/transversion ratio
that keeps its zero default: both substitutions are transitions, so the
transversion counter stays 0 and the guarded ratio assignment never
runs. -/
theorem C8_two_snp_transitions
    (pre mid post : List String) (d1 d2 : String) (n : ℕ) (rd : Bool)
    (ss : ℕ) (m : VcfMetrics) (hss : 2 ≤ ss)
    (hmeta : ∀ l ∈ pre ++ mid ++ post,
      pyStartsWith (pyStrip l) "#" = true ∨
        (pySplitOn (pyStrip l) "\t").length < 8)
    (hd1a : ¬ pyStartsWith (pyStrip d1) "#" = true)
    (hd1b : ¬ (pySplitOn (pyStrip d1) "\t").length < 8)
    (hd1r : (pySplitOn (pyStrip d1) "\t").getD 3 "" = "A")
    (hd1alt : (pySplitOn (pyStrip d1) "\t").getD 4 "" = "G")
    (hd2a : ¬ pyStartsWith (pyStrip d2) "#" = true)
    (hd2b : ¬ (pySplitOn (pyStrip d2) "\t").length < 8)
    (hd2r : (pySplitOn (pyStrip d2) "\t").getD 3 "" = "C")
    (hd2alt : (pySplitOn (pyStrip d2) "\t").getD 4 "" = "T")
    (hok : vcf_calculate_metrics
      (.present n rd ((pre ++ d1 :: mid ++ d2 :: post).map Except.ok)) ss = .ok m) :
    m.snp_count = 2 ∧ m.transition_transversion_ratio = 0 := by
  unfold vcf_calculate_metrics at hok
  dsimp only at hok
  rw [vcfScanLoop_map_ok] at hok
  dsimp only at hok
  injection hok with hok
  subst hok
  rw [List.foldl_append, List.foldl_cons, List.foldl_append, List.foldl_cons]
  have hpre := vcfFoldl_nonData ss pre ⟨0, 0, 0, 0, 0, 0, 0, 0, 0⟩
    (fun l hl => hmeta l (by simp [hl]))
  have hB := vcfStep_transition ss
    (pre.foldl (vcfStep ss) ⟨0, 0, 0, 0, 0, 0, 0, 0, 0⟩) d1
    (by rw [hpre.1]; dsimp only; omega) hd1a hd1b (Or.inl ⟨hd1r, hd1alt⟩)
  have hmid := vcfFoldl_nonData ss mid
    (vcfStep ss (pre.foldl (vcfStep ss) ⟨0, 0, 0, 0, 0, 0, 0, 0, 0⟩) d1)
    (fun l hl => hmeta l (by simp [hl]))
  have hD := vcfStep_transition ss
    (mid.foldl (vcfStep ss)
      (vcfStep ss (pre.foldl (vcfStep ss) ⟨0, 0, 0, 0, 0, 0, 0, 0, 0⟩) d1)) d2
    (by rw [hmid.1, hB.1, hpre.1]; dsimp only; omega) hd2a hd2b (Or.inr ⟨hd2r, hd2alt⟩)
  have hpost := vcfFoldl_nonData ss post
    (vcfStep ss (mid.foldl (vcfStep ss)
      (vcfStep ss (pre.foldl (vcfStep ss) ⟨0, 0, 0, 0, 0, 0, 0, 0, 0⟩) d1)) d2)
    (fun l hl => hmeta l (by simp [hl]))
  have hsnp : (post.foldl (vcfStep ss)
      (vcfStep ss (mid.foldl (vcfStep ss)
        (vcfStep ss (pre.foldl (vcfStep ss) ⟨0, 0, 0, 0, 0, 0, 0, 0, 0⟩) d1)) d2)).snp_count = 2 := by
    rw [hpost.2.1, hD.2.1, hmid.2.1, hB.2.1, hpre.2.1]
  have htvv : (post.foldl (vcfStep ss)
      (vcfStep ss (mid.foldl (vcfStep ss)
        (vcfStep ss (pre.foldl (vcfStep ss) ⟨0, 0, 0, 0, 0, 0, 0, 0, 0⟩) d1)) d2)).transversions = 0 := by
    rw [hpost.2.2.2, hD.2.2.2, hmid.2.2.2, hB.2.2.2, hpre.2.2.2]
  refine ⟨?_, ?_⟩
  · dsimp only
    (repeat' split) <;> exact hsnp
  · dsimp only
    (repeat' split) <;> first | rfl | (exfalso; omega)
theorem C8_witness :
    ∃ m : VcfMetrics,
      vcf_calculate_metrics
        (.present 100 true
          ((["##fileformat=VCFv4.2",
             "#CHROM\tPOS\tID\tREF\tALT\tQUAL\tFILTER\tINFO"] ++
            "chr1\t100\t.\tA\tG\t50\tPASS\tDP=30" :: [] ++
            "chr1\t200\t.\tC\tT\t50\tPASS\tDP=25" :: []).map Except.ok))
        1000 = .ok m ∧
      m.snp_count = 2 ∧ m.transition_transversion_ratio = 0 :=
  ⟨_, rfl,
    C8_two_snp_transitions
      ["##fileformat=VCFv4.2", "#CHROM\tPOS\tID\tREF\tALT\tQUAL\tFILTER\tINFO"]
      [] []
      "chr1\t100\t.\tA\tG\t50\tPASS\tDP=30"
      "chr1\t200\t.\tC\tT\t50\tPASS\tDP=25"
      100 true 1000 _ (by decide) (by decide) (by decide) (by decide)
      (by decide) (by decide) (by decide) (by decide) (by decide) (by decide)
      rfl⟩
/-- One alignment record as pysam presents it to the BAM engine and
validator: the query length and mapping quality plus the flag bits the
source reads. -/
structure BamRead where
  query_length : ℕ
  is_unmapped : Bool
  mapping_quality : ℕ
  is_duplicate : Bool
  is_proper_pair : Bool
deriving Repr, DecidableEq

/-- An opened pysam AlignmentFile: whether its header is truthy, and the
stream that fetch(until_eof=True) yields, where a list element is either
the next read or a raised iteration fault (for example a truncated BGZF
block).  End of stream is the end of the list.  The reference list and
other header content are not modelled: no claim reads them, and the
source only copies them into the elided metadata dict. -/
structure BamHandle where
  header : Bool
  reads : List (Except String BamRead)
deriving Repr, DecidableEq

/-- A path as seen by the BAM code: missing (os.stat raises), or present
with a byte size, a readability flag, whether import pysam succeeds,
the outcome of pysam.AlignmentFile on it (an open fault or a handle; the
mode string differs per extension but opens the same file, so one
outcome models all modes), and whether a .bai or .csi index file sits
next to it. -/
inductive BamFsFile where
  | missing
  | present (sizeBytes : ℕ) (readable : Bool) (pysamOk : Bool)
      (openResult : Except String BamHandle) (hasIndex : Bool)
deriving Repr, DecidableEq

/-- Metrics snapshot produced by BamQCEngine.calculate_metrics.  The
Option fields model the keys that are only added conditionally after the
scan (mean_read_length and the four percentages); mean_coverage,
insert_size_mean and insert_size_std keep their 0 defaults, which the
source never overwrites. -/
structure BamMetrics where
  file_size_mb : ℚ
  total_reads : ℕ
  mapped_reads : ℕ
  unmapped_reads : ℕ
  duplicate_reads : ℕ
  properly_paired : ℕ
  mean_mapping_quality : ℚ
  mean_coverage : ℚ
  insert_size_mean : ℚ
  insert_size_std : ℚ
  mean_read_length : Option ℚ
  mapped_percentage : Option ℚ
  unmapped_percentage : Option ℚ
  duplicate_percentage : Option ℚ
  properly_paired_percentage : Option ℚ
  error : Option String
deriving Repr, DecidableEq

/-- Local counters of the read loop of BamQCEngine.calculate_metrics; the
read_lengths list only ever feeds its sum and length, kept here
directly. -/
structure BamScanState where
  total_reads : ℕ
  mapped_reads : ℕ
  unmapped_reads : ℕ
  duplicate_reads : ℕ
  properly_paired : ℕ
  total_mapq : ℕ
  len_sum : ℕ
  len_cnt : ℕ
deriving Repr, DecidableEq

/-- The read loop of BamQCEngine.calculate_metrics.  The for statement
pulls the next read before the body can test the sample cutoff, so an
iteration fault raises even when the cutoff is already reached, and the
cutoff breaks only after a successful pull. -/
def bamScanLoop (sample_size : ℕ) :
    BamScanState → List (Except String BamRead) → BamScanState × Option String
  | st, [] => (st, none)
  | st, .error e :: _ => (st, some e)
  | st, .ok r :: rest =>
    if sample_size ≤ st.total_reads then (st, none)
    else
      let st1 : BamScanState := { st with
        total_reads := st.total_reads + 1,
        len_sum := st.len_sum + r.query_length,
        len_cnt := st.len_cnt + 1 }
      let st2 : BamScanState :=
        if r.is_unmapped then { st1 with unmapped_reads := st1.unmapped_reads + 1 }
        else
          let a : BamScanState := { st1 with
            mapped_reads := st1.mapped_reads + 1,
            total_mapq := st1.total_mapq + r.mapping_quality }
          let b : BamScanState :=
            if r.is_duplicate then { a with duplicate_reads := a.duplicate_reads + 1 }
            else a
          if r.is_proper_pair then { b with properly_paired := b.properly_paired + 1 }
          else b
      bamScanLoop sample_size st2 rest

/-- filepath.lower().split(.)[-1]: the text after the last dot of the
lowercased path (the whole path when it has no dot). -/
def bam_file_ext (filepath : String) : String :=
  ((pySplitOn (pyLower filepath) ".").getLast?).getD ""

/-- Embedding of BamQCEngine.calculate_metrics (bam_qc.py).  The
file-size stat runs before the try block, so a missing file raises to
the caller; inside the try block a failed pysam import, an unsupported
extension (a raised ValueError), a failed open and an iteration fault
are all captured into the error entry with the defaults otherwise (the
final assignments do not run on those paths); on normal completion the
five counters are stored, and the mean mapping quality, the mean read
length and the four percentages are filled in behind their emptiness
guards. -/
def bam_calculate_metrics (filepath : String) (f : BamFsFile)
    (sample_size : ℕ) : Except String BamMetrics :=
  match f with
  | .missing => .error "[Errno 2] No such file or directory"
  | .present sizeBytes _ pysamOk openResult _ =>
    let m0 : BamMetrics :=
      { file_size_mb := (sizeBytes : ℚ) / (1024 * 1024)
        total_reads := 0
        mapped_reads := 0
        unmapped_reads := 0
        duplicate_reads := 0
        properly_paired := 0
        mean_mapping_quality := 0
        mean_coverage := 0
        insert_size_mean := 0
        insert_size_std := 0
        mean_read_length := none
        mapped_percentage := none
        unmapped_percentage := none
        duplicate_percentage := none
        properly_paired_percentage := none
        error := none }
    if ¬ pysamOk then .ok { m0 with error := some "pysam library not installed" }
    else
      let ext := bam_file_ext filepath
      if ext = "bam" ∨ ext = "sam" ∨ ext = "cram" then
        match openResult with
        | .error e => .ok { m0 with error := some e }
        | .ok h =>
          match bamScanLoop sample_size ⟨0, 0, 0, 0, 0, 0, 0, 0⟩ h.reads with
          | (_, some e) => .ok { m0 with error := some e }
          | (st, none) =>
            let m : BamMetrics := { m0 with
              total_reads := st.total_reads,
              mapped_reads := st.mapped_reads,
              unmapped_reads := st.unmapped_reads,
              duplicate_reads := st.duplicate_reads,
              properly_paired := st.properly_paired }
            let m : BamMetrics :=
              if 0 < st.mapped_reads then
                { m with mean_mapping_quality :=
                    (st.total_mapq : ℚ) / (st.mapped_reads : ℚ) }
              else m
            let m : BamMetrics :=
              if 0 < st.len_cnt then
                { m with
                  mean_read_length := some ((st.len_sum : ℚ) / (st.len_cnt : ℚ)) }
              else m
            let m : BamMetrics :=
              if 0 < st.total_reads then
                { m with
                  mapped_percentage := some ((st.mapped_reads : ℚ) / (st.total_reads : ℚ) * 100),
                  unmapped_percentage := some ((st.unmapped_reads : ℚ) / (st.total_reads : ℚ) * 100),
                  duplicate_percentage := some ((st.duplicate_reads : ℚ) / (st.total_reads : ℚ) * 100),
                  properly_paired_percentage := some ((st.properly_paired : ℚ) / (st.total_reads : ℚ) * 100) }
              else m
            .ok m
      else .ok { m0 with error := some ("Unsupported file type: " ++ ext) }
/-- os.path.splitext extension (with its dot) of a path: the part of the
final path component after its last dot, empty when that component has
no dot or only leading dots. -/
def splitextExt (p : String) : String :=
  let base := ((pySplitOn p "/").getLast?).getD ""
  let cs := base.data
  let revAfter := cs.reverse.takeWhile (fun c => c ≠ '.')
  if revAfter.length = cs.length then ""
  else
    let before := cs.take (cs.length - revAfter.length - 1)
    if before.all (fun c => c = '.') then ""
    else String.mk ('.' :: revAfter.reverse)

/-- First fault among the first n elements of a pysam read stream: the
validator loops pull the next read before testing their count cutoff, so
after k successful pulls the next pull happens exactly while k < n. -/
def firstFaultIn {α : Type} (n : ℕ) (l : List (Except String α)) : Option String :=
  (l.take n).findSome? (fun x => match x with | .error e => some e | .ok _ => none)

/-- Embedding of BamValidator.validate_format (bam_validator.py) as
(valid, errors, warnings): basic checks, extension membership, the
pysam import and open (both captured by the except clauses), the header
check, a read of the first 100 records (an iteration fault is a captured
Validation error), and the index-file warning.  The Unknown format
branch of the source is dead under the preceding membership check and is
not modelled. -/
def BamValidator.validate_format (filepath : String) (f : BamFsFile) :
    Bool × List String × List String :=
  match f with
  | .missing => (false, ["File does not exist: " ++ filepath], [])
  | .present sizeBytes readable pysamOk openResult hasIndex =>
    if sizeBytes = 0 then (false, ["File is empty: " ++ filepath], [])
    else if ¬ readable then (false, ["File is not readable"], [])
    else
      let ext := pyLower (splitextExt filepath)
      if ¬ (ext = ".bam" ∨ ext = ".sam" ∨ ext = ".cram") then
        (false, ["Unsupported extension: " ++ ext], [])
      else if ¬ pysamOk then (false, ["pysam library not installed"], [])
      else
        match openResult with
        | .error e => (false, ["Validation error: " ++ e], [])
        | .ok h =>
          if ¬ h.header then (false, ["Missing file header"], [])
          else
            match firstFaultIn 100 h.reads with
            | some e => (false, ["Validation error: " ++ e], [])
            | none =>
              if ¬ hasIndex then (true, [], ["Index file missing"])
              else (true, [], [])

/-- A validator result dict as the pipeline reads it: the valid flag,
the format value, and the error and warning lists.  The metadata dict is
not modelled: the pipeline control flow never reads it, only the
exception appended to errors while filling it is kept. -/
structure ValidationResult where
  valid : Bool
  format : Option String
  errors : List String
  warnings : List String
deriving Repr, DecidableEq

/-- Embedding of BamValidator.validate (bam_validator.py): runs
validate_format, derives the format name from the extension, and on a
valid file re-opens it for metadata extraction, where an iteration fault
within the first 1000 records appends a Metadata extraction error while
the valid flag stays true. -/
def BamValidator.validate (filepath : String) (f : BamFsFile) : ValidationResult :=
  let r := BamValidator.validate_format filepath f
  let ext := pyLower (splitextExt filepath)
  let fmt : Option String :=
    if ext = ".bam" ∨ ext = ".sam" ∨ ext = ".cram" then
      some (pyUpper ⟨ext.data.drop 1⟩)
    else none
  if r.1 then
    match f with
    | .present _ _ _ (.ok h) _ =>
      match firstFaultIn 1000 h.reads with
      | some e => ⟨true, fmt, r.2.1 ++ ["Metadata extraction error: " ++ e], r.2.2⟩
      | none => ⟨true, fmt, r.2.1, r.2.2⟩
    | _ => ⟨true, fmt, r.2.1, r.2.2⟩
  else ⟨false, fmt, r.2.1, r.2.2⟩

/-- The header loop of VcfValidator.validate_format: scan stripped lines
for one starting with ##fileformat=, giving up after 100 lines; a raised
readline propagates to the except clause of the caller. -/
def vcfHeaderLoop : ℕ → List (Except String String) → Except String Bool
  | _, [] => .ok false
  | _, .error e :: _ => .error e
  | cnt, .ok l :: rest =>
    if pyStartsWith (pyStrip l) "##fileformat=" then .ok true
    else if 100 ≤ cnt + 1 then .ok false
    else vcfHeaderLoop (cnt + 1) rest

/-- Embedding of VcfValidator.validate_format (vcf_validator.py) as
(valid, errors, warnings): basic checks, the non-lowercased extension
test against .vcf and .vcf.gz, then the header scan whose captured
exception becomes a Validation error. -/
def VcfValidator.validate_format (filepath : String) (f : FsFile) :
    Bool × List String × List String :=
  match f with
  | .missing => (false, ["File does not exist: " ++ filepath], [])
  | .present sizeBytes readable reads =>
    if sizeBytes = 0 then (false, ["File is empty: " ++ filepath], [])
    else if ¬ readable then (false, ["File is not readable"], [])
    else if ¬ (pyEndsWith filepath ".vcf" || pyEndsWith filepath ".vcf.gz") then
      (false, ["Unsupported extension for file: " ++ filepath], [])
    else
      match vcfHeaderLoop 0 reads with
      | .error e => (false, ["Validation error: " ++ e], [])
      | .ok true => (true, [], [])
      | .ok false => (false, ["Missing VCF fileformat header"], [])

def vcfHeaderFormatMsg : String := "Неверный формат заголовка"

def vcfLineFormatMsg (n : ℕ) : String := "Неверный формат строки " ++ toString n

def vcfLowQualMsg (n : ℕ) : String :=
  "Низкое качество варианта в строке " ++ toString n

def vcfNoVariantsMsg : String := "Файл не содержит вариантов"

def vcfNoVersionMsg : String := "Не указана версия формата VCF"

/-- Message of the ValueError float() raises on unparsable text. -/
def floatValueErrorMsg (s : String) : String :=
  "could not convert string to float: " ++ apos ++ s ++ apos

/-- Outcome of the metadata loop of VcfValidator.validate: the loop ran
to its end or its break (post-loop warnings then run), or the malformed
#CHROM header returned the result early (skipping them), or an exception
was raised and captured (also skipping them). -/
inductive VcfVOut where
  | done (errors warnings : List String) (variant_count : ℕ) (has_ff : Bool)
  | early (errors warnings : List String)
  | exn (errors warnings : List String) (e : String)
deriving Repr, DecidableEq

/-- The metadata loop of VcfValidator.validate over stripped lines: meta
lines record whether a ##fileformat line occurred; a #CHROM line with
fewer than 8 tab columns returns early with the header error; any other
line not starting with # counts as a variant, the first 10 of which get
the short-line warning and, via float() on a non-dot QUAL column (whose
ValueError is the captured exception), the low-quality warning; the loop
breaks after 1000 variants; a raised readline is also the captured
exception. -/
def vcfValScan : ℕ → Bool → List String → List String →
    List (Except String String) → VcfVOut
  | vc, hff, errors, warnings, [] => .done errors warnings vc hff
  | _, _, errors, warnings, .error e :: _ => .exn errors warnings e
  | vc, hff, errors, warnings, .ok raw :: rest =>
    let line := pyStrip raw
    if pyStartsWith line "##" then
      vcfValScan vc (hff || pyStartsWith line "##fileformat=") errors warnings rest
    else if pyStartsWith line "#CHROM" then
      (let columns := pySplitOn line "	"
       if columns.length < 8 then .early (errors ++ [vcfHeaderFormatMsg]) warnings
       else vcfValScan vc hff errors warnings rest)
    else if ¬ pyStartsWith line "#" then
      (let vc1 := vc + 1
       if vc1 ≤ 10 then
         (let columns := pySplitOn line "	"
          let w1 :=
            if columns.length < 8 then warnings ++ [vcfLineFormatMsg vc1]
            else warnings
          if 5 < columns.length then
            (let qual := columns.getD 5 ""
             if qual ≠ "." then
               match parseDecimal qual with
               | none => .exn errors w1 (floatValueErrorMsg qual)
               | some q =>
                 let w2 := if q < 20 then w1 ++ [vcfLowQualMsg vc1] else w1
                 if 1000 ≤ vc1 then .done errors w2 vc1 hff
                 else vcfValScan vc1 hff errors w2 rest
             else
               if 1000 ≤ vc1 then .done errors w1 vc1 hff
               else vcfValScan vc1 hff errors w1 rest)
          else
            if 1000 ≤ vc1 then .done errors w1 vc1 hff
            else vcfValScan vc1 hff errors w1 rest)
       else
         if 1000 ≤ vc1 then .done errors warnings vc1 hff
         else vcfValScan vc1 hff errors warnings rest)
    else vcfValScan vc hff errors warnings rest

/-- Embedding of VcfValidator.validate (vcf_validator.py): runs
validate_format, then on a valid file re-opens it for the metadata loop;
a completed loop appends the no-variants and no-version warnings behind
their guards, while the early return and the captured exception skip
them; the valid flag always stays the validate_format verdict. -/
def VcfValidator.validate (filepath : String) (f : FsFile) : ValidationResult :=
  let r := VcfValidator.validate_format filepath f
  if r.1 then
    match f with
    | .present _ _ reads =>
      match vcfValScan 0 false r.2.1 r.2.2 reads with
      | .done e w vc hff =>
        let w := if vc = 0 then w ++ [vcfNoVariantsMsg] else w
        let w := if ¬ hff then w ++ [vcfNoVersionMsg] else w
        ⟨true, some "VCF", e, w⟩
      | .early e w => ⟨true, some "VCF", e, w⟩
      | .exn e w ex => ⟨true, some "VCF", e ++ ["Ошибка валидации: " ++ ex], w⟩
    | .missing => ⟨true, some "VCF", r.2.1, r.2.2⟩
  else ⟨false, some "VCF", r.2.1, r.2.2⟩
/-- One input path with both views of its content: the decoded text line
stream (used by the FASTQ and VCF code) and the pysam view (used by the
BAM code).  Both describe the same underlying file. -/
structure PipeFile where
  filepath : String
  text : FsFile
  bam : BamFsFile

/-- The pipeline configuration: one threshold dict per file-type key. -/
structure PipelineConfig where
  fastq : MetricsDict
  bam : MetricsDict
  vcf : MetricsDict
deriving Repr, DecidableEq

/-- config.get(file_type, ...): the threshold dict of a type key, empty
for any other key. -/
def configGet (cfg : PipelineConfig) (file_type : String) : MetricsDict :=
  if file_type = "fastq" then cfg.fastq
  else if file_type = "bam" then cfg.bam
  else if file_type = "vcf" then cfg.vcf
  else []

/-- The default configuration returned by _load_config when no
configuration file is given. -/
def default_config : PipelineConfig :=
  { fastq := [("min_quality_score", 20), ("min_read_length", 50),
              ("max_n_percentage", 5)]
    bam := [("min_mapping_quality", 30), ("min_coverage", 10),
            ("max_unmapped_percentage", 10)]
    vcf := [("min_quality", 30), ("min_depth", 10),
            ("max_missing_percentage", 20)] }

/-- Embedding of QualityControlPipeline.detect_file_type (main.py):
suffix tests on the lowercased path. -/
def detect_file_type (filepath : String) : String :=
  let fl := pyLower filepath
  if pyEndsWith fl ".fastq" || pyEndsWith fl ".fastq.gz" ||
      pyEndsWith fl ".fq" || pyEndsWith fl ".fq.gz" then "fastq"
  else if pyEndsWith fl ".bam" || pyEndsWith fl ".sam" ||
      pyEndsWith fl ".cram" then "bam"
  else if pyEndsWith fl ".vcf" || pyEndsWith fl ".vcf.gz" then "vcf"
  else "unknown"

/-- Embedding of QualityControlPipeline.validate_file (main.py): the
FASTQ validator has no validate method, so its validate_format verdict
and lists are wrapped with the uppercased type name; the BAM and VCF
validators answer through their validate methods; an unregistered type
gets the unsupported-type result (dead after the unknown-type early
return of process_single_file). -/
def validate_file (pf : PipeFile) (file_type : String) : ValidationResult :=
  if file_type = "fastq" then
    let r := FastqValidator.validate_format pf.filepath pf.text 1000
    ⟨r.1, some (pyUpper file_type), r.2.1, r.2.2⟩
  else if file_type = "bam" then BamValidator.validate pf.filepath pf.bam
  else if file_type = "vcf" then VcfValidator.validate pf.filepath pf.text
  else ⟨false, some file_type, ["Unsupported file type: " ++ file_type], []⟩

/-- The nested metrics snapshot held under the metrics key of a
calculate_qc_metrics result: one of the three engine dicts, or the empty
dict of the failure branches. -/
inductive MetricsOut where
  | fq (m : FastqMetrics)
  | bm (m : BamMetrics)
  | vc (m : VcfMetrics)
  | empty
deriving Repr, DecidableEq

/-- A calculate_qc_metrics result dict: an error key present only on the
failure branches, and the nested metrics snapshot. -/
structure CalcQCResult where
  error : Option String
  metrics : MetricsOut
deriving Repr, DecidableEq

/-- Embedding of QualityControlPipeline.calculate_qc_metrics (main.py):
dispatch to the engine registered for the type (with the default sample
sizes of the constructors), wrapping its snapshot under the metrics key;
an exception propagated by the engine is caught into a result with an
error key and an empty metrics dict, as is an unregistered type. -/
def calculate_qc_metrics (pf : PipeFile) (file_type : String) : CalcQCResult :=
  if file_type = "fastq" then
    match fastq_calculate_metrics pf.text 10000 with
    | .ok m => ⟨none, .fq m⟩
    | .error e => ⟨some e, .empty⟩
  else if file_type = "bam" then
    match bam_calculate_metrics pf.filepath pf.bam 1000 with
    | .ok m => ⟨none, .bm m⟩
    | .error e => ⟨some e, .empty⟩
  else if file_type = "vcf" then
    match vcf_calculate_metrics pf.text 1000 with
    | .ok m => ⟨none, .vc m⟩
    | .error e => ⟨some e, .empty⟩
  else ⟨some ("QC engine not implemented for " ++ file_type), .empty⟩

/-- Embedding of QualityControlPipeline.check_quality_status (main.py).
Its metrics argument is the calculate_qc_metrics result, so the error
test sees only the top-level error key of that wrapper, not an error
entry inside the nested engine snapshot; for fastq the average quality
is read from the nested snapshot (0 when the key or the snapshot is
absent) and compared against the configured minimum with a +10 warning
band; every other type that reaches this point is PASS. -/
def check_quality_status (cfg : PipelineConfig) (qc : CalcQCResult)
    (file_type : String) : String :=
  let thresholds := configGet cfg file_type
  if qc.error.isSome then "FAIL"
  else if file_type = "fastq" then
    let avg_quality : ℚ :=
      match qc.metrics with
      | .fq m => m.avg_quality_score
      | _ => 0
    let min_quality := dget thresholds "min_quality_score" 20
    if avg_quality < min_quality then "FAIL"
    else if avg_quality < min_quality + 10 then "WARNING"
    else "PASS"
  else "PASS"

/-- os.path.basename: the part of the path after its last slash. -/
def basename (p : String) : String := ((pySplitOn p "/").getLast?).getD ""

/-- A process_single_file result dict: an Option field models a key the
source adds only on some paths (the unknown-type return carries only
error and quality_status; the invalid return adds no metrics; filename
is added during report generation on the full path only). -/
structure PipelineResult where
  error : Option String
  file_type : Option String
  validation : Option ValidationResult
  metrics : Option MetricsOut
  quality_status : String
  filename : Option String
deriving Repr, DecidableEq

/-- Embedding of QualityControlPipeline.process_single_file (main.py):
an unknown extension returns the FAIL record immediately, before any
validator or engine call; an invalid validation verdict returns FAIL
with the validation result and no metrics; otherwise metrics are
computed, the status evaluated, and the nested snapshot stored (the
report writes themselves are elided, but they add the filename key). -/
def process_single_file (cfg : PipelineConfig) (pf : PipeFile) : PipelineResult :=
  let file_type := detect_file_type pf.filepath
  if file_type = "unknown" then
    ⟨some ("Unknown file type for " ++ pf.filepath), none, none, none, "FAIL", none⟩
  else
    let validation_result := validate_file pf file_type
    if ¬ validation_result.valid then
      ⟨none, some file_type, some validation_result, none, "FAIL", none⟩
    else
      let qc_result := calculate_qc_metrics pf file_type
      let quality_status := check_quality_status cfg qc_result file_type
      ⟨none, some file_type, some validation_result, some qc_result.metrics,
        quality_status, some (basename pf.filepath)⟩
/-- C2: code evaluation refuting the claim.  check_quality_status tests
the error key on the calculate_qc_metrics wrapper, but an exception
captured by an engine sits inside the nested snapshot, so it is never
seen: a .vcf file whose stream faults after a valid header passes
validation (the validator stops at the header line, and the fault met
while filling metadata leaves its valid flag true), the engine captures
the fault into its snapshot, and the pipeline reports quality_status
PASS; the same holds for a BAM engine snapshot with a captured error.
For fastq the claim's FAIL does come out, but through the quality
comparison (the 0 default average is below the configured minimum 20),
not through the error test. -/
theorem C2_code_evaluation :
    (∃ m : VcfMetrics,
      (process_single_file default_config
        ⟨"variants.vcf",
          .present 100 true
            [.ok "##fileformat=VCFv4.2", .error "corrupt gzip stream"],
          .missing⟩).metrics = some (.vc m) ∧
      m.error = some "corrupt gzip stream" ∧
      (process_single_file default_config
        ⟨"variants.vcf",
          .present 100 true
            [.ok "##fileformat=VCFv4.2", .error "corrupt gzip stream"],
          .missing⟩).validation =
        some ⟨true, some "VCF", ["Ошибка валидации: corrupt gzip stream"], []⟩ ∧
      (process_single_file default_config
        ⟨"variants.vcf",
          .present 100 true
            [.ok "##fileformat=VCFv4.2", .error "corrupt gzip stream"],
          .missing⟩).quality_status = "PASS") ∧
    (∃ m : BamMetrics,
      bam_calculate_metrics "aln.bam"
        (.present 10 true true (.ok ⟨true, [.error "truncated BGZF block"]⟩) false)
        1000 = .ok m ∧
      m.error = some "truncated BGZF block" ∧
      check_quality_status default_config ⟨none, .bm m⟩ "bam" = "PASS") ∧
    (∃ m : FastqMetrics,
      fastq_calculate_metrics (.present 4 true [.error "disk read error"]) 10000
        = .ok m ∧
      m.error = some "disk read error" ∧
      check_quality_status default_config ⟨none, .fq m⟩ "fastq" = "FAIL") :=
  ⟨⟨_, rfl, rfl, rfl, rfl⟩, ⟨_, rfl, rfl, rfl⟩, ⟨_, rfl, rfl, rfl⟩⟩
/-- C5 counterexample: the file-size stat of each engine runs while the
metrics dict literal is being built, before the try block, so on a
missing path the exception propagates to the caller instead of being
captured under an error key. -/
theorem C5_counterexample :
    fastq_calculate_metrics .missing 10000 =
      .error "[Errno 2] No such file or directory" ∧
    vcf_calculate_metrics .missing 1000 =
      .error "[Errno 2] No such file or directory" ∧
    bam_calculate_metrics "aln.bam" .missing 1000 =
      .error "[Errno 2] No such file or directory" :=
  ⟨rfl, rfl, rfl⟩

/-- C5 (amended): for every present file each of the three engines
returns a metrics dict (no exception escapes the try block: scan faults,
a missing pysam, a bad extension and a failed open are all captured),
and a fault raised by the first read of the scan is captured under the
error key with the default-initialized metrics otherwise; only the
file-size stat of a missing path, which runs before the try block,
propagates (see the counterexample). -/
theorem C5_scan_errors_captured :
    (∀ (n : ℕ) (rd : Bool) (reads : List (Except String String)) (ss : ℕ),
      ∃ m, fastq_calculate_metrics (.present n rd reads) ss = .ok m) ∧
    (∀ (n : ℕ) (rd : Bool) (reads : List (Except String String)) (ss : ℕ),
      ∃ m, vcf_calculate_metrics (.present n rd reads) ss = .ok m) ∧
    (∀ (fp : String) (n : ℕ) (rd pk : Bool)
        (orr : Except String BamHandle) (hi : Bool) (ss : ℕ),
      ∃ m, bam_calculate_metrics fp (.present n rd pk orr hi) ss = .ok m) ∧
    (∀ (n : ℕ) (rd : Bool) (e : String) (rest : List (Except String String))
        (ss : ℕ),
      ∃ m, fastq_calculate_metrics (.present n rd (.error e :: rest)) (ss + 1) =
          .ok m ∧ m.error = some e ∧ m.total_reads = 0) ∧
    (∀ (n : ℕ) (rd : Bool) (e : String) (rest : List (Except String String))
        (ss : ℕ),
      ∃ m, vcf_calculate_metrics (.present n rd (.error e :: rest)) ss =
          .ok m ∧ m.error = some e ∧ m.total_variants = 0) ∧
    (∀ (fp : String) (n : ℕ) (rd hdr : Bool) (e : String)
        (rest : List (Except String BamRead)) (hi : Bool) (ss : ℕ),
      ∃ m, bam_calculate_metrics fp
          (.present n rd true (.ok ⟨hdr, .error e :: rest⟩) hi) ss = .ok m ∧
        (m.error = some e ∨
          m.error = some ("Unsupported file type: " ++ bam_file_ext fp)) ∧
        m.total_reads = 0) := by
  refine ⟨?_, ?_, ?_, ?_, ?_, ?_⟩
  · intro n rd reads ss
    unfold fastq_calculate_metrics
    dsimp only
    split <;> exact ⟨_, rfl⟩
  · intro n rd reads ss
    unfold vcf_calculate_metrics
    dsimp only
    split <;> exact ⟨_, rfl⟩
  · intro fp n rd pk orr hi ss
    unfold bam_calculate_metrics
    dsimp only
    (repeat' split) <;> exact ⟨_, rfl⟩
  · intro n rd e rest ss
    exact ⟨_, rfl, rfl, rfl⟩
  · intro n rd e rest ss
    exact ⟨_, rfl, rfl, rfl⟩
  · intro fp n rd hdr e rest hi ss
    unfold bam_calculate_metrics
    dsimp only
    by_cases hx : bam_file_ext fp = "bam" ∨ bam_file_ext fp = "sam" ∨
        bam_file_ext fp = "cram"
    · rw [if_neg (show ¬¬(true = true) from not_not_intro rfl), if_pos hx]
      exact ⟨_, rfl, Or.inl rfl, rfl⟩
    · rw [if_neg (show ¬¬(true = true) from not_not_intro rfl), if_neg hx]
      exact ⟨_, rfl, Or.inr rfl, rfl⟩
/-- C9: an input path whose lowercased filename matches none of the
recognized suffixes is detected as unknown, and process_single_file
then returns the FAIL record with the unknown-file-type error
immediately: the result is the same for every file content and carries
no validation, metrics or file_type entries, so neither the validator
nor any engine ran; and detection yields unknown exactly when all three
suffix groups test false. -/
theorem C9_unknown_type_early_fail :
    (∀ (cfg : PipelineConfig) (p : String) (t : FsFile) (b : BamFsFile),
      detect_file_type p = "unknown" →
        process_single_file cfg ⟨p, t, b⟩ =
          ⟨some ("Unknown file type for " ++ p), none, none, none, "FAIL",
            none⟩) ∧
    (∀ p : String,
      detect_file_type p = "unknown" ↔
        ((pyEndsWith (pyLower p) ".fastq" || pyEndsWith (pyLower p) ".fastq.gz" ||
          pyEndsWith (pyLower p) ".fq" || pyEndsWith (pyLower p) ".fq.gz") = false ∧
         (pyEndsWith (pyLower p) ".bam" || pyEndsWith (pyLower p) ".sam" ||
          pyEndsWith (pyLower p) ".cram") = false ∧
         (pyEndsWith (pyLower p) ".vcf" ||
          pyEndsWith (pyLower p) ".vcf.gz") = false)) := by
  constructor
  · intro cfg p t b h
    unfold process_single_file
    dsimp only
    rw [h, if_pos rfl]
  · intro p
    unfold detect_file_type
    dsimp only
    cases h1 : (pyEndsWith (pyLower p) ".fastq" || pyEndsWith (pyLower p) ".fastq.gz" ||
        pyEndsWith (pyLower p) ".fq" || pyEndsWith (pyLower p) ".fq.gz") <;>
      cases h2 : (pyEndsWith (pyLower p) ".bam" || pyEndsWith (pyLower p) ".sam" ||
        pyEndsWith (pyLower p) ".cram") <;>
      cases h3 : (pyEndsWith (pyLower p) ".vcf" ||
        pyEndsWith (pyLower p) ".vcf.gz") <;>
      simp [h1, h2, h3]

theorem C9_witness :
    process_single_file default_config
        ⟨"data.txt", .present 4 true [.ok "hello"], .missing⟩ =
      ⟨some ("Unknown file type for " ++ "data.txt"), none, none, none, "FAIL",
        none⟩ :=
  C9_unknown_type_early_fail.1 default_config "data.txt"
    (.present 4 true [.ok "hello"]) .missing (by decide)
